import Mathlib

/-!
Verification of the superglue execution runtime against its specification.

This file shallowly embeds the core of the step executor
(`callEndpoint`, `executeApiCall` in the API-call module), the
Authorization-header normalisation (`convertBasicAuthToBase64` and the
scheme-dedup regex), the `PostgresService.listRuns` query, and the OAuth
token-URL resolution (`getOAuthTokenUrl` over the static integration
catalog), and proves the specified properties about them.

JavaScript values flowing through the runtime are modelled by a `Json`
inductive; JavaScript string primitives that the source relies on
(`slice`, `startsWith`, `trim`, `toLowerCase`, `includes`, `split`,
base64 encoding, `parseInt`) are given executable models below.
External collaborators that the source imports from modules outside the
embedded core (the HTTP transport `callAxios`, `replaceVariables`,
`evaluateStopCondition`, `parseFile`, `callPostgres`, the LLM client)
are supplied as oracle fields of an environment record, so every theorem
quantifies over their behaviour.
-/

/-! ## JSON values -/

mutual
/-- A JavaScript/JSON value as handled by the runtime. Arrays and objects
use the companion `JsonList` / `JsonFields` types so that all functions
over `Json` are structurally recursive (and hence kernel-computable). -/
inductive Json where
  | null
  | bool (b : Bool)
  | num (n : Int)
  | str (s : String)
  | arr (elems : JsonList)
  | obj (fields : JsonFields)
deriving DecidableEq

/-- A list of JSON values (array elements). -/
inductive JsonList where
  | nil
  | cons (head : Json) (tail : JsonList)
deriving DecidableEq

/-- A list of key/value fields of a JSON object, in insertion order. -/
inductive JsonFields where
  | nil
  | cons (key : String) (val : Json) (tail : JsonFields)
deriving DecidableEq
end

def JsonList.length : JsonList → Nat
  | .nil => 0
  | .cons _ t => t.length + 1

def JsonList.append : JsonList → JsonList → JsonList
  | .nil, ys => ys
  | .cons x xs, ys => .cons x (xs.append ys)

def JsonList.ofList : List Json → JsonList
  | [] => .nil
  | x :: xs => .cons x (JsonList.ofList xs)

def JsonList.toList : JsonList → List Json
  | .nil => []
  | .cons x xs => x :: xs.toList

def JsonList.get? : JsonList → Nat → Option Json
  | .nil, _ => none
  | .cons x _, 0 => some x
  | .cons _ xs, n + 1 => xs.get? n

def JsonFields.length : JsonFields → Nat
  | .nil => 0
  | .cons _ _ t => t.length + 1

def JsonFields.lookup : JsonFields → String → Option Json
  | .nil, _ => none
  | .cons k v t, key => if k = key then some v else t.lookup key

/-- JavaScript truthiness of a value (`undefined` is handled by callers
as `Option.none`). -/
def Json.truthy : Json → Bool
  | .null => false
  | .bool b => b
  | .num n => n != 0
  | .str s => s ≠ ""
  | .arr _ => true
  | .obj _ => true

/-- Truthiness of a possibly-`undefined` value. -/
def jsTruthy : Option Json → Bool
  | none => false
  | some j => j.truthy

/-- Parse a non-empty all-digit string. -/
def decDigits? (cs : List Char) : Option Nat :=
  if cs ≠ [] && cs.all Char.isDigit then
    some (cs.foldl (fun acc c => acc * 10 + (c.toNat - 48)) 0)
  else none

/-- Property access `value[key]` as used by the runtime: object fields by
key, array elements by numeric key; anything else is `undefined`. -/
def Json.get? : Json → String → Option Json
  | .obj fs, k => fs.lookup k
  | .arr xs, k => match decDigits? k.toList with
    | some i => xs.get? i
    | none => none
  | _, _ => none

def Json.isStr : Json → Bool
  | .str _ => true
  | _ => false

def Json.isArr : Json → Bool
  | .arr _ => true
  | _ => false

/-- `Object.keys(x).length` for the values the pagination driver meets:
own enumerable keys of an object, index keys of an array or string,
nothing for primitives. -/
def Json.objectKeysLength : Json → Nat
  | .obj fs => fs.length
  | .arr xs => xs.length
  | .str s => s.length
  | _ => 0

/-! ## JavaScript string primitives -/

def myIntercalate (sep : String) : List String → String
  | [] => ""
  | [x] => x
  | x :: xs => x ++ sep ++ myIntercalate sep xs

/-- `s.slice(0, n)` / `.substring(0, n)`. -/
def jsSlice (s : String) (n : Nat) : String := String.mk (s.toList.take n)

/-- `s.substring(n)`. -/
def jsDropChars (s : String) (n : Nat) : String := String.mk (s.toList.drop n)

def jsStartsWith (s p : String) : Bool := p.toList.isPrefixOf s.toList

/-- Characters matched by the regex class `\s` (the ones relevant here). -/
def isJsSpace (c : Char) : Bool :=
  c = ' ' || c = '\t' || c = '\n' || c = '\r' || c = '\x0b' || c = '\x0c'

/-- `s.trim()`. -/
def jsTrim (s : String) : String :=
  String.mk (((s.toList.dropWhile isJsSpace).reverse.dropWhile isJsSpace).reverse)

def jsToLower (s : String) : String := String.mk (s.toList.map Char.toLower)

def hasSubAux (needle : List Char) : List Char → Bool
  | [] => needle.isEmpty
  | c :: t => needle.isPrefixOf (c :: t) || hasSubAux needle t

/-- `s.includes(sub)`. -/
def jsIncludes (s sub : String) : Bool := hasSubAux sub.toList s.toList

def replaceAllAux (needle repl : List Char) : Nat → List Char → List Char
  | _, [] => []
  | 0, hay => hay
  | fuel + 1, c :: t =>
    if needle.isPrefixOf (c :: t) then
      repl ++ replaceAllAux needle repl fuel ((c :: t).drop needle.length)
    else
      c :: replaceAllAux needle repl fuel t

/-- Replace every occurrence of `needle` in `s` by `repl` (no-op for an
empty needle). -/
def jsReplaceAll (s needle repl : String) : String :=
  if needle = "" then s
  else String.mk (replaceAllAux needle.toList repl.toList s.toList.length s.toList)

/-- JavaScript `parseInt` on a decimal string: skip leading whitespace,
optional sign, then the longest run of leading digits; `none` is `NaN`. -/
def parseIntJS (s : String) : Option Int :=
  let cs := s.toList.dropWhile isJsSpace
  let signed : Int × List Char :=
    match cs with
    | '-' :: rest => (-1, rest)
    | '+' :: rest => (1, rest)
    | _ => (1, cs)
  let digits := signed.2.takeWhile Char.isDigit
  match decDigits? digits with
  | some n => some (signed.1 * (n : Int))
  | none => none

/-! ## JSON.stringify -/

def jsonEscapeChar (c : Char) : String :=
  if c = '"' then "\\\"" else if c = '\\' then "\\\\"
  else if c = '\n' then "\\n" else if c = '\t' then "\\t"
  else if c = '\r' then "\\r" else String.mk [c]

def jsonEscape (s : String) : String := String.join (s.toList.map jsonEscapeChar)

mutual
/-- `JSON.stringify` of a value: element order and object insertion order
are preserved, which is what makes it usable as a stable page hash in the
pagination driver. -/
def Json.stringify : Json → String
  | .null => "null"
  | .bool b => if b then "true" else "false"
  | .num n => toString n
  | .str s => "\"" ++ jsonEscape s ++ "\""
  | .arr xs => "[" ++ JsonList.stringifyElems xs ++ "]"
  | .obj fs => "\x7b" ++ JsonFields.stringifyFields fs ++ "\x7d"

def JsonList.stringifyElems : JsonList → String
  | .nil => ""
  | .cons x .nil => x.stringify
  | .cons x (.cons y t) => x.stringify ++ "," ++ JsonList.stringifyElems (.cons y t)

def JsonFields.stringifyFields : JsonFields → String
  | .nil => ""
  | .cons k v .nil => "\"" ++ jsonEscape k ++ "\":" ++ v.stringify
  | .cons k v (.cons k2 v2 t) =>
    "\"" ++ jsonEscape k ++ "\":" ++ v.stringify ++ "," ++
      JsonFields.stringifyFields (.cons k2 v2 t)
end

/-! ## Base64 (Node `Buffer.from(s).toString("base64")`) -/

def utf8EncodeCharNat (c : Char) : List Nat :=
  let n := c.toNat
  if n < 0x80 then [n]
  else if n < 0x800 then [0xC0 + n / 64, 0x80 + n % 64]
  else if n < 0x10000 then [0xE0 + n / 4096, 0x80 + (n / 64) % 64, 0x80 + n % 64]
  else [0xF0 + n / 262144, 0x80 + (n / 4096) % 64, 0x80 + (n / 64) % 64, 0x80 + n % 64]

def utf8Bytes (s : String) : List Nat := (s.toList.map utf8EncodeCharNat).flatten

def base64Alphabet : List Char :=
  "ABCDEFGHIJKLMNOPQRSTUVWXYZabcdefghijklmnopqrstuvwxyz0123456789+/".toList

def base64Digit (n : Nat) : Char := base64Alphabet.getD n '?'

def base64Chunks : List Nat → List Char
  | [] => []
  | [a] => [base64Digit (a / 4), base64Digit (a % 4 * 16), '=', '=']
  | [a, b] => [base64Digit (a / 4), base64Digit (a % 4 * 16 + b / 16),
      base64Digit (b % 16 * 4), '=']
  | a :: b :: c :: rest =>
    base64Digit (a / 4) :: base64Digit (a % 4 * 16 + b / 16) ::
      base64Digit (b % 16 * 4 + c / 64) :: base64Digit (c % 64) :: base64Chunks rest

def base64Encode (s : String) : String := String.mk (base64Chunks (utf8Bytes s))

/-- The regex `^[A-Za-z0-9+/=]+$` used to decide whether a Basic payload
already looks base64-encoded. -/
def isBase64AlphabetChar (c : Char) : Bool :=
  ('A' ≤ c && c ≤ 'Z') || ('a' ≤ c && c ≤ 'z') || ('0' ≤ c && c ≤ '9') ||
    c = '+' || c = '/' || c = '='

def seemsBase64Encoded (s : String) : Bool :=
  s ≠ "" && s.toList.all isBase64AlphabetChar

/-! ## Authorization header processing (api.ts lines 33-46 and 83-95) -/

/-- `convertBasicAuthToBase64(headerValue)`: take the part after
`"Basic "`, trim it, and if it does not match `^[A-Za-z0-9+/=]+$`,
re-emit the header with the payload base64-encoded. -/
def convertBasicAuthToBase64 (headerValue : String) : String :=
  if headerValue = "" then headerValue
  else
    let credentials := jsTrim (jsDropChars headerValue 6)
    if ¬ seemsBase64Encoded credentials then
      "Basic " ++ base64Encode credentials
    else headerValue

/-- Strip a leading literal `"Basic"` or `"Bearer"` (the regex
alternation tries `Basic` first). -/
def stripAuthScheme (cs : List Char) : Option (String × List Char) :=
  if "Basic".toList.isPrefixOf cs then some ("Basic", cs.drop 5)
  else if "Bearer".toList.isPrefixOf cs then some ("Bearer", cs.drop 6)
  else none

/-- Consume the regex `\s+`: at least one whitespace character, greedily. -/
def dropSpaces1 : List Char → Option (List Char)
  | c :: cs => if isJsSpace c then some (cs.dropWhile isJsSpace) else none
  | [] => none

/-- The replace `value.replace(/^(Basic|Bearer)\s+(Basic|Bearer)\s+/, "$1 $2")`
applied to an Authorization header value. Note the replacement keeps both
captured scheme words and inserts a single space between them, so the
whitespace separating the second scheme word from the payload is removed. -/
def dedupAuthScheme (v : String) : String :=
  match stripAuthScheme v.toList with
  | none => v
  | some (s1, r1) =>
    match dropSpaces1 r1 with
    | none => v
    | some r2 =>
      match stripAuthScheme r2 with
      | none => v
      | some (s2, r3) =>
        match dropSpaces1 r3 with
        | none => v
        | some rest => s1 ++ " " ++ s2 ++ String.mk rest

/-- The per-header processing of `callEndpoint` (lines 83-95) applied to
one substituted header value: Authorization headers go through the
scheme-dedup replace and, when the result starts with `"Basic "`, through
`convertBasicAuthToBase64`. -/
def processHeaderValue (key value : String) : String :=
  let v1 := if jsToLower key = "authorization" then dedupAuthScheme value else value
  if jsToLower key = "authorization" && jsStartsWith v1 "Basic " then
    convertBasicAuthToBase64 v1
  else v1

/-- The full header pipeline of one loop iteration: filter out falsy /
`"undefined"` / `"null"` substituted values, then process each value. -/
def processHeaders (hs : List (String × String)) : List (String × String) :=
  (hs.filter (fun kv => kv.2 ≠ "" && kv.2 ≠ "undefined" && kv.2 ≠ "null")).map
    (fun kv => (kv.1, processHeaderValue kv.1 kv.2))

def processQueryParams (ps : List (String × String)) : List (String × String) :=
  ps.filter (fun kv => kv.2 ≠ "" && kv.2 ≠ "undefined" && kv.2 ≠ "null")

/-! ## Credential masking -/

/-- Modelled from the spec: `maskCredentials` lives in `utils/tools.js`,
which is not part of the embedded sources. The spec says error handling
"masks credential values (substrings matching any known credential) in
error messages"; we model it as replacing every occurrence of each
non-empty credential value by a fixed placeholder. -/
def maskCredentials (msg : String) (credValues : List String) : String :=
  credValues.foldl (fun m v => if v = "" then m else jsReplaceAll m v "<MASKED>") msg

-- sanity checks (JS semantics)
example : jsSlice "hello" 3 = "hel" := rfl
example : jsIncludes "https://api.github.com" "github" = true := rfl
example : jsIncludes "https://api.unknown.com" "github" = false := rfl
example : base64Encode "user:pass" = "dXNlcjpwYXNz" := rfl
example : base64Encode "" = "" := rfl
example : convertBasicAuthToBase64 "Basic user:pass" = "Basic dXNlcjpwYXNz" := rfl
example : convertBasicAuthToBase64 "Basic dXNlcjpwYXNz" = "Basic dXNlcjpwYXNz" := rfl
example : dedupAuthScheme "Basic Basic xyz" = "Basic Basicxyz" := rfl
example : dedupAuthScheme "Bearer tok" = "Bearer tok" := rfl
example : dedupAuthScheme "Bearer  Bearer   tok" = "Bearer Bearertok" := rfl
example : processHeaderValue "Authorization" "Basic Basic user:pass" =
    "Basic " ++ base64Encode "Basicuser:pass" := rfl
example : maskCredentials "key sk-123 leaked sk-123" ["sk-123"] =
    "key <MASKED> leaked <MASKED>" := rfl
example : parseIntJS "50" = some 50 := rfl
example : parseIntJS "  -7x" = some (-7) := rfl
example : parseIntJS "abc" = none := rfl
example : (Json.obj (.cons "a" (Json.num 1) .nil)).stringify = "\x7b\"a\":1\x7d" := rfl

/-! ## Data model for the step executor -/

/-- Modelled from the spec: `server_defaults.MAX_PAGINATION_REQUESTS` is
imported from `default.js`, which is not among the embedded sources; the
spec fixes its default to 1000. -/
def MAX_PAGINATION_REQUESTS : Nat := 1000

/-- Modelled from the spec: `server_defaults.MAX_CALL_RETRIES` is imported
from `default.js`, which is not among the embedded sources; the spec fixes
its default to 8. -/
def MAX_CALL_RETRIES : Nat := 8

inductive PaginationType where
  | OFFSET_BASED
  | PAGE_BASED
  | CURSOR_BASED
  | DISABLED
deriving DecidableEq

/-- The string value of the `PaginationType` enum, as interpolated into
error messages. -/
def PaginationType.label : PaginationType → String
  | .OFFSET_BASED => "OFFSET_BASED"
  | .PAGE_BASED => "PAGE_BASED"
  | .CURSOR_BASED => "CURSOR_BASED"
  | .DISABLED => "DISABLED"

structure Pagination where
  type : PaginationType
  pageSize : Option String := none
  cursorPath : Option String := none
  stopCondition : Option String := none
deriving DecidableEq

structure ApiConfig where
  urlHost : String := ""
  urlPath : String := ""
  instruction : String := ""
  method : String := "GET"
  headers : List (String × String) := []
  queryParams : List (String × String) := []
  body : Option String := none
  dataPath : Option String := none
  pagination : Option Pagination := none
deriving DecidableEq

/-- The request options seen by the step executor. `selfHealingEnabled`
models the result of `isSelfHealingEnabled(options)` (defined in the
GraphQL types module, outside the embedded sources: it checks whether the
self-healing mode covers requests). -/
structure RequestOptions where
  timeout : Option Int := none
  retries : Option Nat := none
  selfHealingEnabled : Bool := true
deriving DecidableEq

/-- An axios response as consumed by `callEndpoint`. -/
structure AxiosResp where
  status : Int := 200
  data : Json := Json.null
  headers : List (String × String) := []
  statusText : String := ""
deriving DecidableEq

/-- The `pageInfo` record passed to the stop-condition evaluator.
`offset = none` models `NaN` (a failed `parseInt`); `cursor = none`
models `undefined` while `some Json.null` is JavaScript `null`. -/
structure PageInfo where
  page : Int
  offset : Option Int
  cursor : Option Json
  totalFetched : Nat
deriving DecidableEq

structure StopEvalResult where
  error : Option String := none
  shouldStop : Bool := false
deriving DecidableEq

/-- JavaScript errors thrown by the embedded code: `ApiCallError`
(with its optional `statusCode`), `AbortError`, and plain `Error`. -/
inductive JsError where
  | apiCall (message : String) (statusCode : Option Int)
  | abort (message : String)
  | generic (message : String)
deriving DecidableEq

def JsError.message : JsError → String
  | .apiCall m _ => m
  | .abort m => m
  | .generic m => m

structure CallResultData where
  data : Json
  statusCode : Int
  headers : List (String × String)
deriving DecidableEq

/-- Oracle environment for one `callEndpoint` run. The `subst*` fields
give the result of `replaceVariables` on the respective template for the
iteration with the given `loopCounter` (substitution itself lives in
`utils/tools.js`, outside the embedded sources); `respond n` is the axios
response to the `n`-th issued request; `parseFile`, `stopEval`,
`composeUrl` and `postgresData` model the external `parseFile`,
`evaluateStopCondition`, `composeUrl` and `callPostgres` collaborators. -/
structure PagEnv where
  substHeaders : Nat → List (String × String) := fun _ => []
  substParams : Nat → List (String × String) := fun _ => []
  substBody : Nat → String := fun _ => ""
  substHost : Nat → String := fun _ => ""
  substPath : Nat → String := fun _ => ""
  composeUrl : String → String → String := fun h p => h ++ p
  respond : Nat → AxiosResp := fun _ => {}
  parseFile : String → Json := fun _ => Json.null
  stopEval : String → Json → PageInfo → StopEvalResult := fun _ _ _ => {}
  postgresData : Json := Json.null

/-- The mutable state of the pagination loop in `callEndpoint`
(lines 51-61), plus a `requests` instrumentation counter that counts the
calls to `callAxios`. -/
structure PagState where
  allResults : List Json := []
  page : Int := 1
  offset : Option Int := some 0
  cursor : Option Json := some Json.null
  hasMore : Bool := true
  loopCounter : Nat := 0
  seenResponseHashes : List String := []
  previousResponseHash : Option String := none
  firstResponseHash : Option String := none
  hasValidData : Bool := false
  lastResponse : Option AxiosResp := none
  requests : Nat := 0
deriving DecidableEq

/-! ## callEndpoint helpers -/

/-- `endpoint.pagination && endpoint.pagination.stopCondition` (truthy). -/
def hasStopCondition (endpoint : ApiConfig) : Bool :=
  match endpoint.pagination with
  | some p => (p.stopCondition.getD "") ≠ ""
  | none => false

/-- `maxRequests` of a run (line 63). -/
def maxRequestsFor (endpoint : ApiConfig) : Nat :=
  if hasStopCondition endpoint then MAX_PAGINATION_REQUESTS else 500

/-- `endpoint.pagination?.pageSize || "50"`. -/
def effPageSize (endpoint : ApiConfig) : String :=
  match endpoint.pagination with
  | some p => match p.pageSize with
    | some s => if s = "" then "50" else s
    | none => "50"
  | none => "50"

/-- Split on a separator character, JavaScript `String.split` style. -/
def splitCharAux (sep : Char) : List Char → List Char → List String
  | acc, [] => [String.mk acc.reverse]
  | acc, c :: t =>
    if c = sep then String.mk acc.reverse :: splitCharAux sep [] t
    else splitCharAux sep (c :: acc) t

def jsSplitChar (s : String) (sep : Char) : List String := splitCharAux sep [] s.toList

/-- The `dataPath` walk (lines 174-185): a falsy segment value stops the
walk (leaving the value as reached so far) unless the segment is `$`,
which is skipped. -/
def walkDataPath : Json → List String → Json
  | d, [] => d
  | d, p :: rest =>
    match d.get? p with
    | some v =>
      if v.truthy then walkDataPath v rest
      else if p = "$" then walkDataPath d rest
      else d
    | none => if p = "$" then walkDataPath d rest else d

/-- Lines 168-185: parse a string body via `parseFile`, then apply the
`dataPath` walk when a data path is set (truthy). -/
def extractResponseData (env : PagEnv) (endpoint : ApiConfig) (d : Json) : Json :=
  let d1 := match d with
    | .str s => env.parseFile s
    | _ => d
  match endpoint.dataPath with
  | some dp => if dp ≠ "" then walkDataPath d1 (jsSplitChar dp '.') else d1
  | none => d1

def okStatuses : List Int := [200, 201, 202, 203, 204, 205]

/-- The failure test of lines 134-137: non-2xx status, a truthy
`data.error`, or a non-empty `data.errors` array. -/
def respFails (r : AxiosResp) : Bool :=
  !(okStatuses.contains r.status) || jsTruthy (r.data.get? "error") ||
    (match r.data.get? "errors" with
     | some (.arr xs) => xs.length > 0
     | _ => false)

/-- The error payload picked on line 138 by the JavaScript `||` chain. -/
def errorPayload (r : AxiosResp) : Json :=
  let e1 := r.data.get? "error"
  let e2 := r.data.get? "errors"
  if jsTruthy e1 then e1.getD Json.null
  else if jsTruthy e2 then e2.getD Json.null
  else if r.data.truthy then r.data
  else if r.statusText ≠ "" then Json.str r.statusText
  else Json.str "undefined"

def strPairFields : List (String × String) → JsonFields
  | [] => .nil
  | (k, v) :: t => .cons k (Json.str v) (strPairFields t)

def strPairsToJson (ps : List (String × String)) : Json := Json.obj (strPairFields ps)

/-- The axios request config object of lines 123-130, for the masked
config embedded in failure messages. -/
def axiosConfigJson (endpoint : ApiConfig) (url : String)
    (hdrs prms : List (String × String)) (body : String)
    (options : RequestOptions) : Json :=
  let timeout : Int := match options.timeout with
    | some t => if t ≠ 0 then t else 60000
    | none => 60000
  Json.obj (.cons "method" (.str endpoint.method)
    (.cons "url" (.str url)
      (.cons "headers" (strPairsToJson hdrs)
        (.cons "data" (.str body)
          (.cons "params" (strPairsToJson prms)
            (.cons "timeout" (.num timeout) .nil))))))

/-- The credential values masked in messages: the values of
`{...credentials, ...payload}`, string values taken verbatim and other
values by their JSON serialization. -/
def jsonAsMaskString : Json → String
  | .str s => s
  | j => j.stringify

def credMaskValues (credentials payload : List (String × Json)) : List String :=
  (credentials ++ payload).map (fun kv => jsonAsMaskString kv.2)

/-- The message template of lines 140-142. -/
def baseFailMessage (method url : String) (status : Int)
    (errStr maskedConfig : String) : String :=
  method ++ " " ++ url ++ " failed with status " ++ toString status ++
    ".\nResponse: " ++ jsSlice errStr 1000 ++ "\nconfig: " ++ maskedConfig

/-- The 429 wrapper of lines 144-151. -/
def rateLimitWrap (r : AxiosResp) (message : String) : String :=
  let retryAfter := match r.headers.lookup "retry-after" with
    | some v => if v ≠ "" then "Retry-After: " ++ v else "No Retry-After header provided"
    | none => "No Retry-After header provided"
  "Rate limit exceeded. " ++ retryAfter ++ ". Maximum wait time of 60s exceeded. \n        \n        " ++ message

/-- The HTML sniff of lines 156-158. -/
def looksHtml (s : String) : Bool :=
  let t := jsToLower (jsTrim (jsSlice s 100))
  jsStartsWith t "<!doctype html" || jsStartsWith t "<html"

/-- The guarded HTML detection applied to a response body: the offending
string body when the response is a string that looks like HTML. -/
def htmlSniff (d : Json) : Option String :=
  match d with
  | .str s => if looksHtml s then some s else none
  | _ => none

def htmlErrorMessage (maskedUrl body : String) : String :=
  "Received HTML response instead of expected JSON data from " ++ maskedUrl ++
    ". \n        This usually indicates an error page or invalid endpoint.\nResponse: " ++
    jsSlice body 2000

/-- The `currentHasData` test of lines 190-191. -/
def currentHasDataOf (d : Json) : Bool :=
  match d with
  | .arr xs => xs.length > 0
  | _ => d.truthy && d.objectKeysLength > 0

def paginationTypeStr (endpoint : ApiConfig) : String :=
  match endpoint.pagination with
  | some p => p.type.label
  | none => "undefined"

def paginationPageSizeStr (endpoint : ApiConfig) : String :=
  match endpoint.pagination with
  | some p => match p.pageSize with
    | some s => s
    | none => "undefined"
  | none => "undefined"

/-- The pagination-misconfiguration message of lines 203-208. -/
def paginationConfigErrorMessage (ptype psize maskedBody maskedParams maskedHeaders : String) : String :=
  "Pagination configuration error: The first two API requests returned identical responses with valid data. " ++
    "This indicates the pagination parameters are not being applied correctly. " ++
    "Please check your pagination configuration (type: " ++ ptype ++ ", pageSize: " ++ psize ++
    "), body: " ++ maskedBody ++ ", queryParams: " ++ maskedParams ++ ", headers: " ++ maskedHeaders ++ "."

/-- The empty-first-page stop-condition message of lines 211-216. -/
def stopConditionEmptyMessage (sc : String) : String :=
  "Stop condition error: The API returned no data on the first request, but the stop condition did not terminate pagination. " ++
    "The stop condition should detect empty responses and stop immediately. " ++
    "Current stop condition: " ++ sc

/-- The stop-condition evaluation failure message of lines 236-239. -/
def stopEvalErrorMessage (err sc : String) : String :=
  "Pagination stop condition error: " ++ err ++ "\nStop condition: " ++ sc

/-- The cursor walk of lines 278-283 (`nextCursor?.[part]` per segment:
optional chaining turns `null`/`undefined` into `undefined`). -/
def walkCursorPath (d : Json) (parts : List String) : Option Json :=
  parts.foldl
    (fun cur part =>
      match cur with
      | none => none
      | some j => if j = Json.null then none else j.get? part)
    (some d)

/-! ## The pagination loop of callEndpoint -/

/-- How one loop iteration ends when it does not fall through to the next
iteration: a thrown error, or the early `return` of the Postgres branch. -/
inductive IterExit where
  | err (e : JsError)
  | early (r : CallResultData)
deriving DecidableEq

/-- Accumulation (lines 247-251): concat an array, push any other truthy
value. -/
def accumulateResults (st : PagState) (d : Json) : PagState :=
  match d with
  | .arr xs => { st with allResults := st.allResults ++ xs.toList }
  | _ => if d.truthy then { st with allResults := st.allResults ++ [d] } else st

/-- The `stopCondition` branch (lines 188-251). Returns the updated state
or the thrown error. -/
def stopConditionBranch (env : PagEnv) (endpoint : ApiConfig) (sc : String)
    (resp : AxiosResp) (responseData : Json)
    (maskedBody maskedParams maskedHeaders : String)
    (st : PagState) : Except JsError PagState :=
  let currentResponseHash := responseData.stringify
  let currentHasData := currentHasDataOf responseData
  let st :=
    if st.loopCounter = 0 then
      { st with firstResponseHash := some currentResponseHash, hasValidData := currentHasData }
    else st
  if st.loopCounter = 1 && st.firstResponseHash == some currentResponseHash &&
      st.hasValidData && currentHasData then
    .error (.generic (paginationConfigErrorMessage (paginationTypeStr endpoint)
      (paginationPageSizeStr endpoint) maskedBody maskedParams maskedHeaders))
  else if st.loopCounter = 1 && !st.hasValidData && !currentHasData then
    .error (.generic (stopConditionEmptyMessage sc))
  else
    let hasMoreE : Except JsError Bool :=
      if st.loopCounter > 1 && st.previousResponseHash == some currentResponseHash then
        .ok false
      else
        let pageInfo : PageInfo :=
          { page := st.page, offset := st.offset, cursor := st.cursor,
            totalFetched := st.allResults.length }
        let stopEval := env.stopEval sc resp.data pageInfo
        if (stopEval.error.getD "") ≠ "" then
          .error (.generic (stopEvalErrorMessage (stopEval.error.getD "") sc))
        else .ok (!stopEval.shouldStop)
    match hasMoreE with
    | .error e => .error e
    | .ok hm =>
      let st := { st with hasMore := hm, previousResponseHash := some currentResponseHash }
      .ok (accumulateResults st responseData)

/-- The branch without a stop condition (lines 252-271): short pages and
previously-seen page hashes end the loop; a previously-seen page is not
accumulated. -/
def noStopConditionBranch (endpoint : ApiConfig) (responseData : Json)
    (st : PagState) : PagState :=
  match responseData with
  | .arr xs =>
    let shortPage : Bool :=
      match parseIntJS (effPageSize endpoint) with
      | none => true
      | some k => k = 0 || (xs.length : Int) < k
    let st := if shortPage then { st with hasMore := false } else st
    let currentResponseHash := (Json.arr xs).stringify
    if st.seenResponseHashes.contains currentResponseHash then
      { st with hasMore := false }
    else
      { st with
          seenResponseHashes := st.seenResponseHashes ++ [currentResponseHash],
          allResults := st.allResults ++ xs.toList }
  | d =>
    if d.truthy && st.allResults.length = 0 then
      { st with allResults := st.allResults ++ [d], hasMore := false }
    else { st with hasMore := false }

/-- `endpoint.pagination?.cursorPath || "next_cursor"`. -/
def cursorPathOf (ep : ApiConfig) : String :=
  match ep.pagination with
  | some pp =>
    match pp.cursorPath with
    | some cp => if cp ≠ "" then cp else "next_cursor"
    | none => "next_cursor"
  | none => "next_cursor"

/-- `endpoint.pagination?.type === PaginationType.CURSOR_BASED`. -/
def isCursorBased (ep : ApiConfig) : Bool :=
  match ep.pagination with
  | some pp => pp.type = .CURSOR_BASED
  | none => false

/-- The cursor advancement of lines 273-287. -/
def advanceCursor (endpoint : ApiConfig) (resp : AxiosResp) (st : PagState) : PagState :=
  match endpoint.pagination with
  | none => st
  | some p =>
    match p.type with
    | .PAGE_BASED => { st with page := st.page + 1 }
    | .OFFSET_BASED =>
      { st with offset :=
          match st.offset, parseIntJS (effPageSize endpoint) with
          | some o, some k => some (o + k)
          | _, _ => none }
    | .CURSOR_BASED =>
      let nextCursor := walkCursorPath resp.data (jsSplitChar (cursorPathOf endpoint) '.')
      let st := { st with cursor := nextCursor }
      if !jsTruthy nextCursor then { st with hasMore := false } else st
    | .DISABLED => st

/-- `endpoint.body ? replaceVariables(endpoint.body, vars) : ""` for the
iteration with the given loop counter. -/
def processedBodyAt (env : PagEnv) (ep : ApiConfig) (n : Nat) : String :=
  match ep.body with
  | some b => if b ≠ "" then env.substBody n else ""
  | none => ""

/-- The `stopCondition` expression string of an endpoint. -/
def stopConditionOf (ep : ApiConfig) : String :=
  match ep.pagination with
  | some pp => pp.stopCondition.getD ""
  | none => ""

/-- One iteration of the `while` body of `callEndpoint` (lines 65-289).
Returns the successor state, together with an `IterExit` when the body
throws or returns early. -/
def pagIter (env : PagEnv) (endpoint : ApiConfig)
    (payload credentials : List (String × Json)) (options : RequestOptions)
    (st : PagState) : PagState × Option IterExit :=
  let n := st.loopCounter
  let processedHeaders := processHeaders (env.substHeaders n)
  let processedQueryParams := processQueryParams (env.substParams n)
  let processedBody := processedBodyAt env endpoint n
  let processedUrlHost := env.substHost n
  let processedUrlPath := env.substPath n
  if jsStartsWith processedUrlHost "postgres://" ||
      jsStartsWith processedUrlHost "postgresql://" then
    (st, some (.early { data := env.postgresData, statusCode := 200, headers := [] }))
  else
    let processedUrl := env.composeUrl processedUrlHost processedUrlPath
    let resp := env.respond n
    let st := { st with lastResponse := some resp, requests := st.requests + 1 }
    let mvals := credMaskValues credentials payload
    if respFails resp then
      let errStr := (errorPayload resp).stringify
      let maskedConfig := maskCredentials
        (axiosConfigJson endpoint processedUrl processedHeaders processedQueryParams
          processedBody options).stringify mvals
      let message := baseFailMessage endpoint.method processedUrl resp.status errStr maskedConfig
      let message := if resp.status = 429 then rateLimitWrap resp message else message
      (st, some (.err (.apiCall
        ("API call failed with status " ++ toString resp.status ++ ". Response: " ++ message)
        (some resp.status))))
    else
      match htmlSniff resp.data with
      | some s =>
        (st, some (.err (.apiCall
          (htmlErrorMessage (maskCredentials processedUrl mvals) s) (some resp.status))))
      | none =>
        let responseData := extractResponseData env endpoint resp.data
        let branched : Except JsError PagState :=
          if hasStopCondition endpoint then
            stopConditionBranch env endpoint (stopConditionOf endpoint)
              resp responseData
              (maskCredentials processedBody mvals)
              (maskCredentials (strPairsToJson processedQueryParams).stringify mvals)
              (maskCredentials (strPairsToJson processedHeaders).stringify mvals)
              st
          else
            .ok (noStopConditionBranch endpoint responseData st)
        match branched with
        | .error e => (st, some (.err e))
        | .ok st2 =>
          let st3 := advanceCursor endpoint resp st2
          ({ st3 with loopCounter := st3.loopCounter + 1 }, none)

/-- The `while (hasMore && loopCounter < maxRequests)` loop, with enough
fuel; `callEndpoint` supplies `fuel = maxRequests`, which dominates the
loop guard since `loopCounter` grows by one per iteration. -/
def pagGo (env : PagEnv) (endpoint : ApiConfig)
    (payload credentials : List (String × Json)) (options : RequestOptions) :
    Nat → PagState → PagState × Option IterExit
  | 0, st => (st, none)
  | fuel + 1, st =>
    if st.hasMore && st.loopCounter < maxRequestsFor endpoint then
      match pagIter env endpoint payload credentials options st with
      | (st1, none) => pagGo env endpoint payload credentials options fuel st1
      | (st1, some ex) => (st1, some ex)
    else (st, none)

/-- The return value assembly of lines 291-306. The `lastResponse = none`
fallback is unreachable because the loop always runs at least once. -/
def finalReturn (endpoint : ApiConfig) (st : PagState) : CallResultData :=
  let status : Int := match st.lastResponse with
    | some r => r.status
    | none => 0
  let headers := match st.lastResponse with
    | some r => r.headers
    | none => []
  if isCursorBased endpoint then
    { data := Json.obj (.cons "next_cursor" (st.cursor.getD Json.null)
        (.cons "results" (Json.arr (JsonList.ofList st.allResults)) .nil)),
      statusCode := status, headers := headers }
  else
    { data := match st.allResults with
        | [x] => x
        | xs => Json.arr (JsonList.ofList xs),
      statusCode := status, headers := headers }

/-- The outcome of a `callEndpoint` run plus the number of HTTP requests
issued (calls to `callAxios`). -/
structure CallRunOut where
  outcome : Except JsError CallResultData
  requests : Nat

/-- The embedded `callEndpoint` (lines 48-307). -/
def callEndpoint (env : PagEnv) (endpoint : ApiConfig)
    (payload credentials : List (String × Json)) (options : RequestOptions) :
    CallRunOut :=
  let out := pagGo env endpoint payload credentials options (maxRequestsFor endpoint) {}
  match out.2 with
  | some (.err e) => { outcome := .error e, requests := out.1.requests }
  | some (.early r) => { outcome := .ok r, requests := out.1.requests }
  | none => { outcome := .ok (finalReturn endpoint out.1), requests := out.1.requests }

/-! ## Concrete construction helpers and sanity runs -/

def JsonFields.ofList : List (String × Json) → JsonFields
  | [] => .nil
  | (k, v) :: t => .cons k v (JsonFields.ofList t)

def jarr (xs : List Json) : Json := Json.arr (JsonList.ofList xs)

def jobj (fs : List (String × Json)) : Json := Json.obj (JsonFields.ofList fs)

-- Spec scenario 1: page-based, two pages of sizes 2 and 1.
def pagedScenarioEnv : PagEnv :=
  { substHost := fun _ => "https://api.example.com",
    respond := fun n =>
      if n = 0 then { data := jarr [jobj [("id", .num 1)], jobj [("id", .num 2)]] }
      else { data := jarr [jobj [("id", .num 3)]] } }

def pagedScenarioEndpoint : ApiConfig :=
  { pagination := some { type := .PAGE_BASED, pageSize := some "2" } }

example : (callEndpoint pagedScenarioEnv pagedScenarioEndpoint [] [] {}).requests = 2 := rfl
example : (callEndpoint pagedScenarioEnv pagedScenarioEndpoint [] [] {}).outcome =
    .ok { data := jarr [jobj [("id", .num 1)], jobj [("id", .num 2)], jobj [("id", .num 3)]],
          statusCode := 200, headers := [] } := rfl

-- Spec scenario 3: cursor-based with dataPath and cursorPath.
def cursorScenarioEnv : PagEnv :=
  { substHost := fun _ => "https://api.example.com",
    respond := fun n =>
      if n = 0 then
        { data := jobj [("data", jarr [jobj [("id", .num 1)], jobj [("id", .num 2)]]),
                        ("meta", jobj [("next_cursor", .str "c1")])] }
      else
        { data := jobj [("data", jarr [jobj [("id", .num 3)]]),
                        ("meta", jobj [("next_cursor", .null)])] } }

def cursorScenarioEndpoint : ApiConfig :=
  { dataPath := some "data",
    pagination := some { type := .CURSOR_BASED, pageSize := some "2",
                         cursorPath := some "meta.next_cursor" } }

example : (callEndpoint cursorScenarioEnv cursorScenarioEndpoint [] [] {}).requests = 2 := rfl
example : (callEndpoint cursorScenarioEnv cursorScenarioEndpoint [] [] {}).outcome =
    .ok { data := jobj [("next_cursor", .null),
            ("results", jarr [jobj [("id", .num 1)], jobj [("id", .num 2)], jobj [("id", .num 3)]])],
          statusCode := 200, headers := [] } := rfl

-- Identical consecutive pages terminate after two requests without
-- accumulating the duplicate.
def dupPageEnv : PagEnv :=
  { substHost := fun _ => "https://api.example.com",
    respond := fun _ => { data := jarr [jobj [("id", .num 1)], jobj [("id", .num 2)]] } }

example : (callEndpoint dupPageEnv pagedScenarioEndpoint [] [] {}).requests = 2 := rfl
example : (callEndpoint dupPageEnv pagedScenarioEndpoint [] [] {}).outcome =
    .ok { data := jarr [jobj [("id", .num 1)], jobj [("id", .num 2)]],
          statusCode := 200, headers := [] } := rfl

-- Postgres delegation returns in the first iteration with no HTTP request.
def postgresEnv : PagEnv :=
  { substHost := fun _ => "postgres://db.internal:5432",
    postgresData := jarr [jobj [("row", .num 7)]] }

example : callEndpoint postgresEnv {} [] [] {} =
    { outcome := .ok { data := jarr [jobj [("row", .num 7)]], statusCode := 200, headers := [] },
      requests := 0 } := rfl

/-! ## executeApiCall: the self-healing repair loop (lines 471-568) -/

structure ChatMsg where
  role : String
  content : String
deriving DecidableEq

/-- Result contract of the LLM response evaluator (`evaluateResponse`). -/
structure EvalResult where
  success : Bool := true
  refactorNeeded : Bool := false
  shortReason : String := ""
deriving DecidableEq

/-- What one `LanguageModel.generateObject` call inside
`generateApiConfig` yields: the updated conversation and either an
`error` string (truthy means abort) or a generated `apiConfig`. -/
structure LlmGenOut where
  messages : List ChatMsg := []
  error : Option String := none
  apiConfig : ApiConfig := {}

/-- Oracle environment for `executeApiCall`: the per-attempt
`callEndpoint` environment, the LLM generation step of
`generateApiConfig` (prompt assembly and the language model live outside
the embedded sources and are absorbed into `initialMessages` /
`llmGenerate`), and the LLM response evaluator `evaluateResponse`. -/
structure ExecEnv where
  pagEnv : Nat → PagEnv := fun _ => {}
  initialMessages : List ChatMsg := []
  llmGenerate : Nat → List ChatMsg → LlmGenOut := fun _ _ => {}
  evalResponse : Nat → Json → EvalResult := fun _ _ => {}

/-- The embedded `generateApiConfig` (lines 309-406), reduced to the parts
`executeApiCall` observes: seed the conversation when it is empty, consult
the LLM, abort on a truthy `error`, otherwise assemble the new config,
which keeps the original `instruction` and takes the generated request
fields. -/
def generateApiConfig (env : ExecEnv) (apiConfig : ApiConfig) (retryCount : Nat)
    (messages : List ChatMsg) : Except JsError (ApiConfig × List ChatMsg) :=
  let messages := if messages.isEmpty then env.initialMessages else messages
  let gen := env.llmGenerate retryCount messages
  if (gen.error.getD "") ≠ "" then .error (.abort (gen.error.getD ""))
  else .ok ({ gen.apiConfig with instruction := apiConfig.instruction }, gen.messages)

/-- The mutable state of the `do`/`while` loop of `executeApiCall`, plus
an `attempts` instrumentation counter counting entries into the loop
body. -/
structure ExecState where
  endpoint : ApiConfig
  messages : List ChatMsg := []
  retryCount : Nat := 0
  lastError : Option String := none
  respData : Option Json := none
  respStatusCode : Option Int := none
  respHeaders : List (String × String) := []
  success : Bool := false
  attempts : Nat := 0

/-- The `catch` block of lines 540-556. The raw (unmasked) error string
is pushed onto the LLM conversation; the masked and truncated variant
only goes to `lastError`. Returns the state and whether the loop `break`s
(`AbortError`). -/
def execCatch (credentials : List (String × Json)) (e : JsError)
    (st : ExecState) : ExecState × Bool :=
  let rawErrorString := e.message
  let lastError := jsSlice (maskCredentials rawErrorString (credMaskValues credentials [])) 1000
  let st := { st with lastError := some lastError }
  let st :=
    if st.retryCount > 0 then
      { st with messages := st.messages ++
          [{ role := "user",
             content := "There was an error with the configuration, please fix: " ++
               jsSlice rawErrorString 2000 }] }
    else st
  let statusCodeTruthy : Bool := match st.respStatusCode with
    | some s => s ≠ 0
    | none => false
  let st :=
    if !statusCodeTruthy then
      { st with respStatusCode := match e with
          | .apiCall _ sc => sc
          | _ => some 500 }
    else st
  match e with
  | .abort _ => (st, true)
  | _ => (st, false)

/-- One pass through the `try` block of lines 500-539 (with its `catch`).
Returns the state and whether the loop `break`s. -/
def execAttempt (env : ExecEnv) (payload credentials : List (String × Json))
    (options : RequestOptions) (st : ExecState) : ExecState × Bool :=
  let st := { st with attempts := st.attempts + 1 }
  let generated : Except JsError (ApiConfig × List ChatMsg) :=
    if st.retryCount > 0 && options.selfHealingEnabled then
      generateApiConfig env st.endpoint st.retryCount st.messages
    else .ok (st.endpoint, st.messages)
  match generated with
  | .error e => execCatch credentials e st
  | .ok (ep, msgs) =>
    let st := { st with endpoint := ep, messages := msgs }
    let callOut := callEndpoint (env.pagEnv st.retryCount) ep payload credentials options
    match callOut.outcome with
    | .error e => execCatch credentials e st
    | .ok r =>
      let st := { st with
          respData := some r.data
          respStatusCode := some r.statusCode
          respHeaders := r.headers }
      if !r.data.truthy then
        execCatch credentials
          (.generic "No data returned from API. This could be due to a configuration error.") st
      else if st.retryCount > 0 && options.selfHealingEnabled then
        let ev := env.evalResponse st.retryCount r.data
        let st := { st with success := ev.success }
        if !ev.success then
          execCatch credentials
            (.generic (ev.shortReason ++ " " ++ jsSlice r.data.stringify 1000)) st
        else (st, true)
      else ({ st with success := true }, true)

/-- The `do { ... retryCount++ } while (retryCount < budget)` loop.
`fuel` only bounds the recursion; `executeApiCall` passes `fuel = budget`,
which the guard `retryCount < budget` can never outrun. -/
def execGo (env : ExecEnv) (payload credentials : List (String × Json))
    (options : RequestOptions) (budget : Nat) : Nat → ExecState → ExecState
  | fuel, st =>
    let out := execAttempt env payload credentials options st
    if out.2 then out.1
    else
      let st2 := { out.1 with retryCount := out.1.retryCount + 1 }
      if st2.retryCount < budget then
        match fuel with
        | 0 => st2
        | f + 1 => execGo env payload credentials options budget f st2
      else st2

structure ExecSuccess where
  data : Option Json
  endpoint : ApiConfig
  statusCode : Option Int
  headers : List (String × String)

/-- The observable outcome of `executeApiCall`, with the loop state it
ended in. -/
structure ExecOut where
  outcome : Except JsError ExecSuccess
  attempts : Nat
  messages : List ChatMsg
  lastError : Option String
  retryCount : Nat
  success : Bool

/-- The final failure message of line 564. -/
def execFailMessage (retryCount : Nat) (lastError : Option String) : String :=
  "API call failed after " ++ toString retryCount ++ " retries. Last error: " ++
    (match lastError with
     | some l => l
     | none => "null")

/-- The embedded `executeApiCall` (lines 471-568). -/
def executeApiCall (env : ExecEnv) (endpoint : ApiConfig)
    (payload credentials : List (String × Json)) (options : RequestOptions) : ExecOut :=
  let budget := match options.retries with
    | some r => r
    | none => MAX_CALL_RETRIES
  let st := execGo env payload credentials options budget budget { endpoint := endpoint }
  if !st.success then
    { outcome := .error (.apiCall (execFailMessage st.retryCount st.lastError) st.respStatusCode)
      attempts := st.attempts
      messages := st.messages
      lastError := st.lastError
      retryCount := st.retryCount
      success := false }
  else
    { outcome := .ok { data := st.respData, endpoint := st.endpoint, statusCode := st.respStatusCode, headers := st.respHeaders }
      attempts := st.attempts
      messages := st.messages
      lastError := st.lastError
      retryCount := st.retryCount
      success := true }

/-! ## PostgresService.listRuns (datastore/postgres.ts lines 1099-1134) -/

/-- One row of the `runs` table as far as `listRuns` reads it:
`(id, config_id, org_id, started_at)`. -/
structure RunRow where
  id : String
  configId : Option String := none
  orgId : String := ""
  startedAt : Int := 0
deriving DecidableEq

/-- The WHERE clause shared by the count and select queries:
`org_id = $1` (with `orgId || ""`), and `config_id = $2` only when a
truthy `configId` was passed. -/
def runMatches (configId : Option String) (effOrg : String) (r : RunRow) : Bool :=
  r.orgId == effOrg &&
    (match configId with
     | some c => if c ≠ "" then r.configId == some c else true
     | none => true)

structure RunListPage where
  items : List RunRow
  total : Nat

/-- The embedded `listRuns`: `total` comes from `SELECT COUNT(*)` over the
filter, `items` from `SELECT ... ORDER BY started_at DESC LIMIT $ OFFSET $`
(a stable sort models the tie behaviour the tests rely on). -/
def listRuns (db : List RunRow) (limit offset : Nat)
    (configId : Option String) (orgId : Option String) : RunListPage :=
  let effOrg := orgId.getD ""
  let matched := db.filter (runMatches configId effOrg)
  let sorted := List.insertionSort (fun a b => b.startedAt ≤ a.startedAt) matched
  { items := (sorted.drop offset).take limit, total := matched.length }

/-! ## getOAuthTokenUrl (shared/integrations.ts lines 1009-1029) -/

/-- The static integration catalog, in source order, restricted to what
`getOAuthTokenUrl` consumes: the entry key and `oauth?.tokenUrl`. -/
def integrations : List (String × Option String) := [
  ("stripe", none),
  ("shopify", some "https://\x7bshop\x7d.myshopify.com/admin/oauth/access_token"),
  ("hubspot", some "https://api.hubapi.com/oauth/v1/token"),
  ("attio", none),
  ("twilio", none),
  ("sendgrid", none),
  ("github", some "https://github.com/login/oauth/access_token"),
  ("gitlab", some "https://gitlab.com/oauth/token"),
  ("bitbucket", some "https://bitbucket.org/site/oauth2/access_token"),
  ("slack", some "https://slack.com/api/oauth.v2.access"),
  ("airtable", some "https://airtable.com/oauth2/v1/token"),
  ("gmail", some "https://oauth2.googleapis.com/token"),
  ("googleDrive", some "https://oauth2.googleapis.com/token"),
  ("googleCalendar", some "https://oauth2.googleapis.com/token"),
  ("googleSheets", some "https://oauth2.googleapis.com/token"),
  ("googleAnalytics", some "https://oauth2.googleapis.com/token"),
  ("youtube", some "https://oauth2.googleapis.com/token"),
  ("aws", none),
  ("googleCloud", some "https://oauth2.googleapis.com/token"),
  ("firebase", some "https://oauth2.googleapis.com/token"),
  ("salesforce", some "https://login.salesforce.com/services/oauth2/token"),
  ("facebook", some "https://graph.facebook.com/v18.0/oauth/access_token"),
  ("instagram", some "https://graph.facebook.com/v23.0/oauth/access_token"),
  ("twitter", some "https://api.twitter.com/2/oauth2/token"),
  ("linkedin", some "https://www.linkedin.com/oauth/v2/accessToken"),
  ("paypal", none),
  ("square", some "https://connect.squareup.com/oauth2/token"),
  ("adyen", none),
  ("razorpay", none),
  ("plaid", none),
  ("zendesk", some "https://\x7bsubdomain\x7d.zendesk.com/oauth/tokens"),
  ("freshdesk", none),
  ("freshworks", none),
  ("servicenow", none),
  ("helpscout", none),
  ("dropbox", some "https://api.dropboxapi.com/oauth2/token"),
  ("mailchimp", some "https://login.mailchimp.com/oauth2/token"),
  ("jira", some "https://auth.atlassian.com/oauth/token"),
  ("confluence", some "https://auth.atlassian.com/oauth/token"),
  ("quickbooks", some "https://oauth.platform.intuit.com/oauth2/v1/tokens/bearer"),
  ("xero", some "https://identity.xero.com/connect/token"),
  ("docusign", some "https://account.docusign.com/oauth/token"),
  ("intercom", some "https://api.intercom.io/auth/eagle/token"),
  ("asana", some "https://app.asana.com/-/oauth_token"),
  ("trello", none),
  ("notion", some "https://api.notion.com/v1/oauth/token"),
  ("digitalocean", some "https://cloud.digitalocean.com/v1/oauth/token"),
  ("heroku", some "https://id.heroku.com/oauth/token"),
  ("circleci", none),
  ("travisci", none),
  ("wordpress", none),
  ("cloudflare", none),
  ("bigcommerce", none),
  ("woocommerce", none),
  ("prestashop", none),
  ("squarespace", some "https://login.squarespace.com/api/1/login/oauth/provider/tokens"),
  ("monday", some "https://auth.monday.com/oauth2/token"),
  ("clickup", some "https://app.clickup.com/api/v2/oauth/token"),
  ("typeform", some "https://api.typeform.com/oauth/token"),
  ("figma", some "https://www.figma.com/api/oauth/token"),
  ("contentful", none),
  ("sanity", none),
  ("prismic", none),
  ("netlify", some "https://api.netlify.com/oauth/token"),
  ("vercel", none),
  ("amplitude", none),
  ("segment", none),
  ("mixpanel", none),
  ("algolia", none),
  ("snowflake", none),
  ("databricks", none),
  ("looker", none),
  ("mongodb", none),
  ("supabase", none),
  ("planetscale", none),
  ("openai", none),
  ("anthropic", none),
  ("pinecone", none),
  ("zoom", some "https://zoom.us/oauth/token"),
  ("microsoft", some "https://login.microsoftonline.com/common/oauth2/v2.0/token"),
  ("redis", none),
  ("elasticsearch", none),
  ("postmark", none),
  ("sentry", none),
  ("pagerduty", none),
  ("datadog", none),
  ("newrelic", none),
  ("auth0", some "https://\x7byour-domain\x7d.auth0.com/oauth/token"),
  ("okta", none),
  ("discord", some "https://discord.com/api/oauth2/token"),
  ("telegram", none),
  ("whatsapp", none),
  ("linear", none),
  ("resend", none),
  ("googleAds", some "https://oauth2.googleapis.com/token"),
  ("google", some "https://oauth2.googleapis.com/token")]

/-- The integration argument of `getOAuthTokenUrl`:
`{ id, urlHost, credentials }`, of which only `credentials.token_url` is
read. -/
structure IntegrationInput where
  id : String
  urlHost : String
  token_url : Option String := none

/-- The embedded `getOAuthTokenUrl`: a truthy `credentials.token_url`
wins; else the first catalog entry whose key equals `id` or occurs as a
substring of `urlHost` supplies its `oauth.tokenUrl` when set; else the
fallback `urlHost + "/oauth/token"`. -/
def getOAuthTokenUrl (integration : IntegrationInput) : String :=
  if (integration.token_url.getD "") ≠ "" then integration.token_url.getD ""
  else
    match integrations.find?
        (fun kv => integration.id == kv.1 || jsIncludes integration.urlHost kv.1) with
    | some (_, some tokenUrl) => tokenUrl
    | _ => integration.urlHost ++ "/oauth/token"

-- the four test vectors of the oauth test suite
example : getOAuthTokenUrl { id := "github", urlHost := "https://api.github.com" } =
    "https://github.com/login/oauth/access_token" := rfl
example : getOAuthTokenUrl { id := "my-github", urlHost := "https://api.github.com" } =
    "https://github.com/login/oauth/access_token" := rfl
example : getOAuthTokenUrl
    { id := "custom", urlHost := "https://api.custom.com",
      token_url := some "https://custom.com/oauth/token" } =
    "https://custom.com/oauth/token" := rfl
example : getOAuthTokenUrl { id := "unknown", urlHost := "https://api.unknown.com" } =
    "https://api.unknown.com/oauth/token" := rfl

/-! ## Loop invariants: request counting -/

theorem accumulateResults_requests (st : PagState) (d : Json) :
    (accumulateResults st d).requests = st.requests := by
  unfold accumulateResults
  split
  · rfl
  · split <;> rfl

theorem stopConditionBranch_ok_requests {env ep sc resp rd mb mp mh st st'}
    (h : stopConditionBranch env ep sc resp rd mb mp mh st = Except.ok st') :
    st'.requests = st.requests := by
  unfold stopConditionBranch at h
  dsimp only at h
  repeat' split at h
  all_goals cases h
  all_goals rw [accumulateResults_requests]

theorem noStopConditionBranch_requests (ep : ApiConfig) (d : Json) (st : PagState) :
    (noStopConditionBranch ep d st).requests = st.requests := by
  unfold noStopConditionBranch
  dsimp only
  split
  · split <;> split <;> rfl
  · split <;> rfl

theorem advanceCursor_requests (ep : ApiConfig) (resp : AxiosResp) (st : PagState) :
    (advanceCursor ep resp st).requests = st.requests := by
  unfold advanceCursor
  split
  · rfl
  · split
    · rfl
    · rfl
    · dsimp only
      split <;> rfl
    · rfl

theorem pagIter_requests_le (env : PagEnv) (ep : ApiConfig)
    (p c : List (String × Json)) (o : RequestOptions) (st : PagState) :
    (pagIter env ep p c o st).1.requests ≤ st.requests + 1 := by
  unfold pagIter
  dsimp only
  split
  · exact Nat.le_succ _
  · split
    · exact Nat.le_refl _
    · split
      · exact Nat.le_refl _
      · split
        · exact Nat.le_refl _
        · rename_i st2 hbr
          have hreq : st2.requests = st.requests + 1 := by
            split at hbr
            · exact stopConditionBranch_ok_requests hbr
            · injection hbr with hbr
              subst hbr
              rw [noStopConditionBranch_requests]
          simp only []
          rw [advanceCursor_requests, hreq]

theorem pagGo_requests_le (env : PagEnv) (ep : ApiConfig)
    (p c : List (String × Json)) (o : RequestOptions) :
    ∀ (fuel : Nat) (st : PagState),
      (pagGo env ep p c o fuel st).1.requests ≤ st.requests + fuel := by
  intro fuel
  induction fuel with
  | zero => intro st; exact Nat.le_refl _
  | succ f ih =>
    intro st
    unfold pagGo
    split
    · have h1 := pagIter_requests_le env ep p c o st
      split
      · rename_i st1 hiter
        have h2 := ih st1
        have h3 : st1.requests ≤ st.requests + 1 := by rw [hiter] at h1; exact h1
        calc (pagGo env ep p c o f st1).1.requests ≤ st1.requests + f := h2
          _ ≤ st.requests + 1 + f := Nat.add_le_add_right h3 f
          _ = st.requests + (f + 1) := by omega
      · rename_i st1 ex hiter
        have h3 : st1.requests ≤ st.requests + 1 := by rw [hiter] at h1; exact h1
        calc st1.requests ≤ st.requests + 1 := h3
          _ ≤ st.requests + (f + 1) := by omega
    · exact Nat.le_add_right _ _

/-- C1: every `callEndpoint` run issues at most `maxRequests` HTTP
requests: 500 without a stop condition, `MAX_PAGINATION_REQUESTS`
(default 1000) with one. -/
theorem callEndpoint_request_bound (env : PagEnv) (ep : ApiConfig)
    (p c : List (String × Json)) (o : RequestOptions) :
    (callEndpoint env ep p c o).requests ≤ maxRequestsFor ep ∧
      maxRequestsFor ep = (if hasStopCondition ep then MAX_PAGINATION_REQUESTS else 500) ∧
      MAX_PAGINATION_REQUESTS = 1000 := by
  refine ⟨?_, rfl, rfl⟩
  unfold callEndpoint
  have h := pagGo_requests_le env ep p c o (maxRequestsFor ep) {}
  simp only [] at h ⊢
  split <;> simpa using h

/-! ## C10: Postgres delegation -/

/-- C10: when the substituted `urlHost` of the first iteration starts with
`postgres://` or `postgresql://`, `callEndpoint` returns inside the first
loop iteration with the `callPostgres` result, status code 200 and empty
headers, issuing no HTTP request; the response-status checks, HTML
detection, pagination bookkeeping and `dataPath` extraction never touch
the result (the outcome does not depend on `respond`, `parseFile` or
`stopEval`). -/
theorem callEndpoint_postgres_delegation (env : PagEnv) (ep : ApiConfig)
    (p c : List (String × Json)) (o : RequestOptions)
    (h : jsStartsWith (env.substHost 0) "postgres://" = true ∨
         jsStartsWith (env.substHost 0) "postgresql://" = true) :
    callEndpoint env ep p c o =
      { outcome := .ok { data := env.postgresData, statusCode := 200, headers := [] },
        requests := 0 } := by
  have hstart : (jsStartsWith (env.substHost 0) "postgres://" ||
      jsStartsWith (env.substHost 0) "postgresql://") = true := by
    rcases h with h | h <;> simp [h]
  have hiter : pagIter env ep p c o {} =
      ({}, some (.early { data := env.postgresData, statusCode := 200, headers := [] })) := by
    unfold pagIter
    dsimp only
    rw [if_pos hstart]
  obtain ⟨k, hk⟩ : ∃ k, maxRequestsFor ep = k + 1 := by
    unfold maxRequestsFor
    split
    · exact ⟨999, rfl⟩
    · exact ⟨499, rfl⟩
  have hgo : pagGo env ep p c o (maxRequestsFor ep) {} =
      ({}, some (.early { data := env.postgresData, statusCode := 200, headers := [] })) := by
    rw [hk]
    unfold pagGo
    rw [if_pos (by simp; rw [hk]; exact Nat.succ_pos k), hiter]
  unfold callEndpoint
  dsimp only
  rw [hgo]

/-- Witness for C10 at a concrete Postgres endpoint environment. -/
theorem callEndpoint_postgres_delegation_witness :
    callEndpoint postgresEnv {} [] [] {} =
      { outcome := .ok { data := jarr [jobj [("row", .num 7)]], statusCode := 200, headers := [] },
        requests := 0 } :=
  callEndpoint_postgres_delegation postgresEnv {} [] [] {} (Or.inl rfl)

/-! ## Iteration-level lemmas for the branch without a stop condition -/

theorem JsonList.ofList_toList : ∀ xs : JsonList, JsonList.ofList xs.toList = xs
  | .nil => rfl
  | .cons x t => by
    rw [JsonList.toList, JsonList.ofList, JsonList.ofList_toList t]

theorem advanceCursor_allResults (ep : ApiConfig) (resp : AxiosResp) (st : PagState) :
    (advanceCursor ep resp st).allResults = st.allResults := by
  unfold advanceCursor
  split
  · rfl
  · split
    · rfl
    · rfl
    · dsimp only
      split <;> rfl
    · rfl

theorem advanceCursor_loopCounter (ep : ApiConfig) (resp : AxiosResp) (st : PagState) :
    (advanceCursor ep resp st).loopCounter = st.loopCounter := by
  unfold advanceCursor
  split
  · rfl
  · split
    · rfl
    · rfl
    · dsimp only
      split <;> rfl
    · rfl

theorem advanceCursor_lastResponse (ep : ApiConfig) (resp : AxiosResp) (st : PagState) :
    (advanceCursor ep resp st).lastResponse = st.lastResponse := by
  unfold advanceCursor
  split
  · rfl
  · split
    · rfl
    · rfl
    · dsimp only
      split <;> rfl
    · rfl

theorem advanceCursor_seenHashes (ep : ApiConfig) (resp : AxiosResp) (st : PagState) :
    (advanceCursor ep resp st).seenResponseHashes = st.seenResponseHashes := by
  unfold advanceCursor
  split
  · rfl
  · split
    · rfl
    · rfl
    · dsimp only
      split <;> rfl
    · rfl

theorem advanceCursor_hasMore_false (ep : ApiConfig) (resp : AxiosResp) (st : PagState)
    (h : st.hasMore = false) : (advanceCursor ep resp st).hasMore = false := by
  unfold advanceCursor
  split
  · exact h
  · split
    · exact h
    · exact h
    · dsimp only
      split
      · rfl
      · exact h
    · exact h

theorem advanceCursor_hasMore_of_pageOffset (ep : ApiConfig) (resp : AxiosResp)
    (st : PagState) (pg : Pagination) (hp : ep.pagination = some pg)
    (ht : pg.type = .PAGE_BASED ∨ pg.type = .OFFSET_BASED) :
    (advanceCursor ep resp st).hasMore = st.hasMore := by
  unfold advanceCursor
  rw [hp]
  dsimp only
  rcases ht with ht | ht <;> rw [ht]

/-- A previously seen array page hash: the loop is flagged to stop and
nothing else changes (in particular nothing is accumulated). -/
theorem noStopConditionBranch_seen (ep : ApiConfig) (xs : JsonList) (st : PagState)
    (hseen : st.seenResponseHashes.contains (Json.arr xs).stringify = true) :
    noStopConditionBranch ep (Json.arr xs) st = { st with hasMore := false } := by
  unfold noStopConditionBranch
  dsimp only
  repeat' split
  any_goals rfl

/-- A fresh array page hash: the hash is recorded and the page elements
are appended to the accumulator; `hasMore` survives when the page is not
short. -/
theorem noStopConditionBranch_fresh (ep : ApiConfig) (xs : JsonList) (st : PagState)
    (hshort : (match parseIntJS (effPageSize ep) with
               | none => true
               | some k => k = 0 || ((xs.length : Int) < k)) = false)
    (hseen : st.seenResponseHashes.contains (Json.arr xs).stringify = false) :
    noStopConditionBranch ep (Json.arr xs) st =
      { st with
          seenResponseHashes := st.seenResponseHashes ++ [(Json.arr xs).stringify],
          allResults := st.allResults ++ xs.toList } := by
  unfold noStopConditionBranch
  dsimp only
  rw [hshort]
  simp only [if_false, Bool.false_eq_true]
  rw [if_neg (by rw [hseen]; exact Bool.false_ne_true)]

/-- The composite effect of one non-exiting loop iteration. -/
def pagIterNext (env : PagEnv) (ep : ApiConfig) (st : PagState) : PagState :=
  let resp := env.respond st.loopCounter
  let st1 := { st with lastResponse := some resp, requests := st.requests + 1 }
  let st2 := noStopConditionBranch ep (extractResponseData env ep resp.data) st1
  let st3 := advanceCursor ep resp st2
  { st3 with loopCounter := st3.loopCounter + 1 }

/-- Under a passing response and no stop condition, one loop iteration is
exactly `pagIterNext`. -/
theorem pagIter_noStop_normal (env : PagEnv) (ep : ApiConfig)
    (p c : List (String × Json)) (o : RequestOptions) (st : PagState)
    (hstop : hasStopCondition ep = false)
    (hpg : (jsStartsWith (env.substHost st.loopCounter) "postgres://" ||
            jsStartsWith (env.substHost st.loopCounter) "postgresql://") = false)
    (hfail : respFails (env.respond st.loopCounter) = false)
    (hhtml : htmlSniff (env.respond st.loopCounter).data = none) :
    pagIter env ep p c o st = (pagIterNext env ep st, none) := by
  unfold pagIter pagIterNext
  dsimp only
  rw [hpg]
  simp only [Bool.false_eq_true, if_false]
  rw [hfail]
  simp only [Bool.false_eq_true, if_false]
  rw [hhtml, hstop]
  simp only [Bool.false_eq_true, if_false]

theorem pagGo_stop (env : PagEnv) (ep : ApiConfig) (p c : List (String × Json))
    (o : RequestOptions) (fuel : Nat) (st : PagState) (h : st.hasMore = false) :
    pagGo env ep p c o fuel st = (st, none) := by
  cases fuel with
  | zero => rfl
  | succ f =>
    unfold pagGo
    rw [h]
    simp

theorem pagGo_step (env : PagEnv) (ep : ApiConfig) (p c : List (String × Json))
    (o : RequestOptions) (f : Nat) (st st1 : PagState)
    (hg : (st.hasMore && decide (st.loopCounter < maxRequestsFor ep)) = true)
    (hit : pagIter env ep p c o st = (st1, none)) :
    pagGo env ep p c o (f + 1) st = pagGo env ep p c o f st1 := by
  conv_lhs => unfold pagGo
  rw [if_pos hg, hit]

/-- An endpoint with pagination but no stop condition and page size 2
(the concrete shape used for the two-identical-pages scenario). -/
def noStopEndpoint (pt : PaginationType) : ApiConfig :=
  { pagination := some { type := pt, pageSize := some "2" } }

/-- C2: in a pagination run without a stop condition, (a) an iteration
whose extracted array body hashes to a previously seen page hash ends the
loop without accumulating the page; (b) when the first two responses are
identical array pages of at least the page size, the run issues exactly 2
requests and returns only the first page contents. -/
theorem callEndpoint_duplicate_page_terminates :
    (∀ (env : PagEnv) (ep : ApiConfig) (p c : List (String × Json))
       (o : RequestOptions) (st : PagState) (xs : JsonList),
       hasStopCondition ep = false →
       (jsStartsWith (env.substHost st.loopCounter) "postgres://" ||
         jsStartsWith (env.substHost st.loopCounter) "postgresql://") = false →
       respFails (env.respond st.loopCounter) = false →
       htmlSniff (env.respond st.loopCounter).data = none →
       extractResponseData env ep (env.respond st.loopCounter).data = Json.arr xs →
       st.seenResponseHashes.contains (Json.arr xs).stringify = true →
       ∃ st', pagIter env ep p c o st = (st', none) ∧ st'.hasMore = false ∧
         st'.allResults = st.allResults ∧ st'.requests = st.requests + 1) ∧
    (∀ (env : PagEnv) (pt : PaginationType) (p c : List (String × Json))
       (o : RequestOptions) (xs : JsonList),
       (pt = .PAGE_BASED ∨ pt = .OFFSET_BASED) →
       (∀ n, (jsStartsWith (env.substHost n) "postgres://" ||
              jsStartsWith (env.substHost n) "postgresql://") = false) →
       env.respond 1 = env.respond 0 →
       respFails (env.respond 0) = false →
       htmlSniff (env.respond 0).data = none →
       extractResponseData env (noStopEndpoint pt) (env.respond 0).data = Json.arr xs →
       2 ≤ xs.length →
       (callEndpoint env (noStopEndpoint pt) p c o).requests = 2 ∧
       (callEndpoint env (noStopEndpoint pt) p c o).outcome =
         .ok { data := Json.arr xs, statusCode := (env.respond 0).status,
               headers := (env.respond 0).headers }) := by
  constructor
  · intro env ep p c o st xs hstop hpg hfail hhtml hex hseen
    refine ⟨pagIterNext env ep st,
      pagIter_noStop_normal env ep p c o st hstop hpg hfail hhtml, ?_, ?_, ?_⟩
    · unfold pagIterNext
      dsimp only
      rw [hex, noStopConditionBranch_seen ep xs
        { st with lastResponse := some (env.respond st.loopCounter), requests := st.requests + 1 } hseen]
      exact advanceCursor_hasMore_false _ _ _ rfl
    · unfold pagIterNext
      dsimp only
      rw [hex, noStopConditionBranch_seen ep xs
        { st with lastResponse := some (env.respond st.loopCounter), requests := st.requests + 1 } hseen]
      rw [advanceCursor_allResults]
    · unfold pagIterNext
      dsimp only
      rw [hex, noStopConditionBranch_seen ep xs
        { st with lastResponse := some (env.respond st.loopCounter), requests := st.requests + 1 } hseen]
      rw [advanceCursor_requests]
  · intro env pt p c o xs hpt hpg hr1 hfail hhtml hex hlen
    obtain ⟨a, b, t, hxs⟩ : ∃ a b t, xs = JsonList.cons a (JsonList.cons b t) := by
      match xs, hlen with
      | JsonList.cons a (JsonList.cons b t), _ => exact ⟨a, b, t, rfl⟩
    subst hxs
    have hshort : (match parseIntJS (effPageSize (noStopEndpoint pt)) with
        | none => true
        | some k => decide (k = 0) || decide (((JsonList.cons a (JsonList.cons b t)).length : Int) < k)) = false := by
      have hps : parseIntJS (effPageSize (noStopEndpoint pt)) = some 2 := rfl
      rw [hps]
      simp only [JsonList.length, decide_eq_false_iff_not, Bool.or_eq_false_iff]
      refine ⟨by norm_num, ?_⟩
      push_cast
      omega
    rcases hpt with hpt | hpt <;> subst hpt
    · -- PAGE_BASED
      have h1 : pagIter env (noStopEndpoint .PAGE_BASED) p c o {} =
          (pagIterNext env (noStopEndpoint .PAGE_BASED) {}, none) :=
        pagIter_noStop_normal env (noStopEndpoint .PAGE_BASED) p c o {} rfl (hpg 0) hfail hhtml
      have e1 : pagIterNext env (noStopEndpoint .PAGE_BASED) {} =
          { allResults := (JsonList.cons a (JsonList.cons b t)).toList, page := 2, offset := some 0, cursor := some Json.null, hasMore := true, loopCounter := 1, seenResponseHashes := [(Json.arr (JsonList.cons a (JsonList.cons b t))).stringify], previousResponseHash := none, firstResponseHash := none, hasValidData := false, lastResponse := some (env.respond 0), requests := 1 } := by
        unfold pagIterNext
        dsimp only
        rw [hex]
        rw [noStopConditionBranch_fresh (noStopEndpoint .PAGE_BASED) (JsonList.cons a (JsonList.cons b t))
          { allResults := [], page := 1, offset := some 0, cursor := some Json.null, hasMore := true, loopCounter := 0, seenResponseHashes := [], previousResponseHash := none, firstResponseHash := none, hasValidData := false, lastResponse := some (env.respond 0), requests := 0 + 1 } hshort rfl]
        rfl
      have hcont : ([(Json.arr (JsonList.cons a (JsonList.cons b t))).stringify].contains (Json.arr (JsonList.cons a (JsonList.cons b t))).stringify) = true := by simp
      have h2 : pagIter env (noStopEndpoint .PAGE_BASED) p c o { allResults := (JsonList.cons a (JsonList.cons b t)).toList, page := 2, offset := some 0, cursor := some Json.null, hasMore := true, loopCounter := 1, seenResponseHashes := [(Json.arr (JsonList.cons a (JsonList.cons b t))).stringify], previousResponseHash := none, firstResponseHash := none, hasValidData := false, lastResponse := some (env.respond 0), requests := 1 } =
          (pagIterNext env (noStopEndpoint .PAGE_BASED) { allResults := (JsonList.cons a (JsonList.cons b t)).toList, page := 2, offset := some 0, cursor := some Json.null, hasMore := true, loopCounter := 1, seenResponseHashes := [(Json.arr (JsonList.cons a (JsonList.cons b t))).stringify], previousResponseHash := none, firstResponseHash := none, hasValidData := false, lastResponse := some (env.respond 0), requests := 1 }, none) :=
        pagIter_noStop_normal env (noStopEndpoint .PAGE_BASED) p c o { allResults := (JsonList.cons a (JsonList.cons b t)).toList, page := 2, offset := some 0, cursor := some Json.null, hasMore := true, loopCounter := 1, seenResponseHashes := [(Json.arr (JsonList.cons a (JsonList.cons b t))).stringify], previousResponseHash := none, firstResponseHash := none, hasValidData := false, lastResponse := some (env.respond 0), requests := 1 } rfl (hpg 1)
          (by show respFails (env.respond 1) = false; rw [hr1]; exact hfail)
          (by show htmlSniff (env.respond 1).data = none; rw [hr1]; exact hhtml)
      have e2 : pagIterNext env (noStopEndpoint .PAGE_BASED) { allResults := (JsonList.cons a (JsonList.cons b t)).toList, page := 2, offset := some 0, cursor := some Json.null, hasMore := true, loopCounter := 1, seenResponseHashes := [(Json.arr (JsonList.cons a (JsonList.cons b t))).stringify], previousResponseHash := none, firstResponseHash := none, hasValidData := false, lastResponse := some (env.respond 0), requests := 1 } = { allResults := (JsonList.cons a (JsonList.cons b t)).toList, page := 3, offset := some 0, cursor := some Json.null, hasMore := false, loopCounter := 2, seenResponseHashes := [(Json.arr (JsonList.cons a (JsonList.cons b t))).stringify], previousResponseHash := none, firstResponseHash := none, hasValidData := false, lastResponse := some (env.respond 0), requests := 2 } := by
        unfold pagIterNext
        dsimp only
        rw [hr1, hex]
        rw [noStopConditionBranch_seen (noStopEndpoint .PAGE_BASED) (JsonList.cons a (JsonList.cons b t))
          { allResults := (JsonList.cons a (JsonList.cons b t)).toList, page := 2, offset := some 0, cursor := some Json.null, hasMore := true, loopCounter := 1, seenResponseHashes := [(Json.arr (JsonList.cons a (JsonList.cons b t))).stringify], previousResponseHash := none, firstResponseHash := none, hasValidData := false, lastResponse := some (env.respond 0), requests := 1 + 1 } hcont]
        rfl
      have hit1 : pagIter env (noStopEndpoint .PAGE_BASED) p c o {} = ({ allResults := (JsonList.cons a (JsonList.cons b t)).toList, page := 2, offset := some 0, cursor := some Json.null, hasMore := true, loopCounter := 1, seenResponseHashes := [(Json.arr (JsonList.cons a (JsonList.cons b t))).stringify], previousResponseHash := none, firstResponseHash := none, hasValidData := false, lastResponse := some (env.respond 0), requests := 1 }, none) := by rw [h1, e1]
      have hit2 : pagIter env (noStopEndpoint .PAGE_BASED) p c o { allResults := (JsonList.cons a (JsonList.cons b t)).toList, page := 2, offset := some 0, cursor := some Json.null, hasMore := true, loopCounter := 1, seenResponseHashes := [(Json.arr (JsonList.cons a (JsonList.cons b t))).stringify], previousResponseHash := none, firstResponseHash := none, hasValidData := false, lastResponse := some (env.respond 0), requests := 1 } = ({ allResults := (JsonList.cons a (JsonList.cons b t)).toList, page := 3, offset := some 0, cursor := some Json.null, hasMore := false, loopCounter := 2, seenResponseHashes := [(Json.arr (JsonList.cons a (JsonList.cons b t))).stringify], previousResponseHash := none, firstResponseHash := none, hasValidData := false, lastResponse := some (env.respond 0), requests := 2 }, none) := by rw [h2, e2]
      have hgo : pagGo env (noStopEndpoint .PAGE_BASED) p c o 500 {} = ({ allResults := (JsonList.cons a (JsonList.cons b t)).toList, page := 3, offset := some 0, cursor := some Json.null, hasMore := false, loopCounter := 2, seenResponseHashes := [(Json.arr (JsonList.cons a (JsonList.cons b t))).stringify], previousResponseHash := none, firstResponseHash := none, hasValidData := false, lastResponse := some (env.respond 0), requests := 2 }, none) := by
        calc pagGo env (noStopEndpoint .PAGE_BASED) p c o 500 {}
            = pagGo env (noStopEndpoint .PAGE_BASED) p c o 499 { allResults := (JsonList.cons a (JsonList.cons b t)).toList, page := 2, offset := some 0, cursor := some Json.null, hasMore := true, loopCounter := 1, seenResponseHashes := [(Json.arr (JsonList.cons a (JsonList.cons b t))).stringify], previousResponseHash := none, firstResponseHash := none, hasValidData := false, lastResponse := some (env.respond 0), requests := 1 } :=
              pagGo_step env (noStopEndpoint .PAGE_BASED) p c o 499 {} { allResults := (JsonList.cons a (JsonList.cons b t)).toList, page := 2, offset := some 0, cursor := some Json.null, hasMore := true, loopCounter := 1, seenResponseHashes := [(Json.arr (JsonList.cons a (JsonList.cons b t))).stringify], previousResponseHash := none, firstResponseHash := none, hasValidData := false, lastResponse := some (env.respond 0), requests := 1 } rfl hit1
          _ = pagGo env (noStopEndpoint .PAGE_BASED) p c o 498 { allResults := (JsonList.cons a (JsonList.cons b t)).toList, page := 3, offset := some 0, cursor := some Json.null, hasMore := false, loopCounter := 2, seenResponseHashes := [(Json.arr (JsonList.cons a (JsonList.cons b t))).stringify], previousResponseHash := none, firstResponseHash := none, hasValidData := false, lastResponse := some (env.respond 0), requests := 2 } :=
              pagGo_step env (noStopEndpoint .PAGE_BASED) p c o 498 { allResults := (JsonList.cons a (JsonList.cons b t)).toList, page := 2, offset := some 0, cursor := some Json.null, hasMore := true, loopCounter := 1, seenResponseHashes := [(Json.arr (JsonList.cons a (JsonList.cons b t))).stringify], previousResponseHash := none, firstResponseHash := none, hasValidData := false, lastResponse := some (env.respond 0), requests := 1 } { allResults := (JsonList.cons a (JsonList.cons b t)).toList, page := 3, offset := some 0, cursor := some Json.null, hasMore := false, loopCounter := 2, seenResponseHashes := [(Json.arr (JsonList.cons a (JsonList.cons b t))).stringify], previousResponseHash := none, firstResponseHash := none, hasValidData := false, lastResponse := some (env.respond 0), requests := 2 } rfl hit2
          _ = ({ allResults := (JsonList.cons a (JsonList.cons b t)).toList, page := 3, offset := some 0, cursor := some Json.null, hasMore := false, loopCounter := 2, seenResponseHashes := [(Json.arr (JsonList.cons a (JsonList.cons b t))).stringify], previousResponseHash := none, firstResponseHash := none, hasValidData := false, lastResponse := some (env.respond 0), requests := 2 }, none) := pagGo_stop env (noStopEndpoint .PAGE_BASED) p c o 498 { allResults := (JsonList.cons a (JsonList.cons b t)).toList, page := 3, offset := some 0, cursor := some Json.null, hasMore := false, loopCounter := 2, seenResponseHashes := [(Json.arr (JsonList.cons a (JsonList.cons b t))).stringify], previousResponseHash := none, firstResponseHash := none, hasValidData := false, lastResponse := some (env.respond 0), requests := 2 } rfl
      have hcall : callEndpoint env (noStopEndpoint .PAGE_BASED) p c o =
          { outcome := .ok (finalReturn (noStopEndpoint .PAGE_BASED) { allResults := (JsonList.cons a (JsonList.cons b t)).toList, page := 3, offset := some 0, cursor := some Json.null, hasMore := false, loopCounter := 2, seenResponseHashes := [(Json.arr (JsonList.cons a (JsonList.cons b t))).stringify], previousResponseHash := none, firstResponseHash := none, hasValidData := false, lastResponse := some (env.respond 0), requests := 2 }), requests := ({ allResults := (JsonList.cons a (JsonList.cons b t)).toList, page := 3, offset := some 0, cursor := some Json.null, hasMore := false, loopCounter := 2, seenResponseHashes := [(Json.arr (JsonList.cons a (JsonList.cons b t))).stringify], previousResponseHash := none, firstResponseHash := none, hasValidData := false, lastResponse := some (env.respond 0), requests := 2 } : PagState).requests } := by
        unfold callEndpoint
        dsimp only
        rw [show maxRequestsFor (noStopEndpoint .PAGE_BASED) = 500 from rfl, hgo]
      rw [hcall]
      refine ⟨rfl, ?_⟩
      show Except.ok (finalReturn (noStopEndpoint .PAGE_BASED) { allResults := (JsonList.cons a (JsonList.cons b t)).toList, page := 3, offset := some 0, cursor := some Json.null, hasMore := false, loopCounter := 2, seenResponseHashes := [(Json.arr (JsonList.cons a (JsonList.cons b t))).stringify], previousResponseHash := none, firstResponseHash := none, hasValidData := false, lastResponse := some (env.respond 0), requests := 2 }) = _
      unfold finalReturn
      dsimp only [JsonList.toList]
      rw [show JsonList.ofList (a :: b :: t.toList) = JsonList.cons a (JsonList.cons b (JsonList.ofList t.toList)) from rfl,
        JsonList.ofList_toList]
      rfl
    · -- OFFSET_BASED
      have h1 : pagIter env (noStopEndpoint .OFFSET_BASED) p c o {} =
          (pagIterNext env (noStopEndpoint .OFFSET_BASED) {}, none) :=
        pagIter_noStop_normal env (noStopEndpoint .OFFSET_BASED) p c o {} rfl (hpg 0) hfail hhtml
      have e1 : pagIterNext env (noStopEndpoint .OFFSET_BASED) {} =
          { allResults := (JsonList.cons a (JsonList.cons b t)).toList, page := 1, offset := some 2, cursor := some Json.null, hasMore := true, loopCounter := 1, seenResponseHashes := [(Json.arr (JsonList.cons a (JsonList.cons b t))).stringify], previousResponseHash := none, firstResponseHash := none, hasValidData := false, lastResponse := some (env.respond 0), requests := 1 } := by
        unfold pagIterNext
        dsimp only
        rw [hex]
        rw [noStopConditionBranch_fresh (noStopEndpoint .OFFSET_BASED) (JsonList.cons a (JsonList.cons b t))
          { allResults := [], page := 1, offset := some 0, cursor := some Json.null, hasMore := true, loopCounter := 0, seenResponseHashes := [], previousResponseHash := none, firstResponseHash := none, hasValidData := false, lastResponse := some (env.respond 0), requests := 0 + 1 } hshort rfl]
        rfl
      have hcont : ([(Json.arr (JsonList.cons a (JsonList.cons b t))).stringify].contains (Json.arr (JsonList.cons a (JsonList.cons b t))).stringify) = true := by simp
      have h2 : pagIter env (noStopEndpoint .OFFSET_BASED) p c o { allResults := (JsonList.cons a (JsonList.cons b t)).toList, page := 1, offset := some 2, cursor := some Json.null, hasMore := true, loopCounter := 1, seenResponseHashes := [(Json.arr (JsonList.cons a (JsonList.cons b t))).stringify], previousResponseHash := none, firstResponseHash := none, hasValidData := false, lastResponse := some (env.respond 0), requests := 1 } =
          (pagIterNext env (noStopEndpoint .OFFSET_BASED) { allResults := (JsonList.cons a (JsonList.cons b t)).toList, page := 1, offset := some 2, cursor := some Json.null, hasMore := true, loopCounter := 1, seenResponseHashes := [(Json.arr (JsonList.cons a (JsonList.cons b t))).stringify], previousResponseHash := none, firstResponseHash := none, hasValidData := false, lastResponse := some (env.respond 0), requests := 1 }, none) :=
        pagIter_noStop_normal env (noStopEndpoint .OFFSET_BASED) p c o { allResults := (JsonList.cons a (JsonList.cons b t)).toList, page := 1, offset := some 2, cursor := some Json.null, hasMore := true, loopCounter := 1, seenResponseHashes := [(Json.arr (JsonList.cons a (JsonList.cons b t))).stringify], previousResponseHash := none, firstResponseHash := none, hasValidData := false, lastResponse := some (env.respond 0), requests := 1 } rfl (hpg 1)
          (by show respFails (env.respond 1) = false; rw [hr1]; exact hfail)
          (by show htmlSniff (env.respond 1).data = none; rw [hr1]; exact hhtml)
      have e2 : pagIterNext env (noStopEndpoint .OFFSET_BASED) { allResults := (JsonList.cons a (JsonList.cons b t)).toList, page := 1, offset := some 2, cursor := some Json.null, hasMore := true, loopCounter := 1, seenResponseHashes := [(Json.arr (JsonList.cons a (JsonList.cons b t))).stringify], previousResponseHash := none, firstResponseHash := none, hasValidData := false, lastResponse := some (env.respond 0), requests := 1 } = { allResults := (JsonList.cons a (JsonList.cons b t)).toList, page := 1, offset := some 4, cursor := some Json.null, hasMore := false, loopCounter := 2, seenResponseHashes := [(Json.arr (JsonList.cons a (JsonList.cons b t))).stringify], previousResponseHash := none, firstResponseHash := none, hasValidData := false, lastResponse := some (env.respond 0), requests := 2 } := by
        unfold pagIterNext
        dsimp only
        rw [hr1, hex]
        rw [noStopConditionBranch_seen (noStopEndpoint .OFFSET_BASED) (JsonList.cons a (JsonList.cons b t))
          { allResults := (JsonList.cons a (JsonList.cons b t)).toList, page := 1, offset := some 2, cursor := some Json.null, hasMore := true, loopCounter := 1, seenResponseHashes := [(Json.arr (JsonList.cons a (JsonList.cons b t))).stringify], previousResponseHash := none, firstResponseHash := none, hasValidData := false, lastResponse := some (env.respond 0), requests := 1 + 1 } hcont]
        rfl
      have hit1 : pagIter env (noStopEndpoint .OFFSET_BASED) p c o {} = ({ allResults := (JsonList.cons a (JsonList.cons b t)).toList, page := 1, offset := some 2, cursor := some Json.null, hasMore := true, loopCounter := 1, seenResponseHashes := [(Json.arr (JsonList.cons a (JsonList.cons b t))).stringify], previousResponseHash := none, firstResponseHash := none, hasValidData := false, lastResponse := some (env.respond 0), requests := 1 }, none) := by rw [h1, e1]
      have hit2 : pagIter env (noStopEndpoint .OFFSET_BASED) p c o { allResults := (JsonList.cons a (JsonList.cons b t)).toList, page := 1, offset := some 2, cursor := some Json.null, hasMore := true, loopCounter := 1, seenResponseHashes := [(Json.arr (JsonList.cons a (JsonList.cons b t))).stringify], previousResponseHash := none, firstResponseHash := none, hasValidData := false, lastResponse := some (env.respond 0), requests := 1 } = ({ allResults := (JsonList.cons a (JsonList.cons b t)).toList, page := 1, offset := some 4, cursor := some Json.null, hasMore := false, loopCounter := 2, seenResponseHashes := [(Json.arr (JsonList.cons a (JsonList.cons b t))).stringify], previousResponseHash := none, firstResponseHash := none, hasValidData := false, lastResponse := some (env.respond 0), requests := 2 }, none) := by rw [h2, e2]
      have hgo : pagGo env (noStopEndpoint .OFFSET_BASED) p c o 500 {} = ({ allResults := (JsonList.cons a (JsonList.cons b t)).toList, page := 1, offset := some 4, cursor := some Json.null, hasMore := false, loopCounter := 2, seenResponseHashes := [(Json.arr (JsonList.cons a (JsonList.cons b t))).stringify], previousResponseHash := none, firstResponseHash := none, hasValidData := false, lastResponse := some (env.respond 0), requests := 2 }, none) := by
        calc pagGo env (noStopEndpoint .OFFSET_BASED) p c o 500 {}
            = pagGo env (noStopEndpoint .OFFSET_BASED) p c o 499 { allResults := (JsonList.cons a (JsonList.cons b t)).toList, page := 1, offset := some 2, cursor := some Json.null, hasMore := true, loopCounter := 1, seenResponseHashes := [(Json.arr (JsonList.cons a (JsonList.cons b t))).stringify], previousResponseHash := none, firstResponseHash := none, hasValidData := false, lastResponse := some (env.respond 0), requests := 1 } :=
              pagGo_step env (noStopEndpoint .OFFSET_BASED) p c o 499 {} { allResults := (JsonList.cons a (JsonList.cons b t)).toList, page := 1, offset := some 2, cursor := some Json.null, hasMore := true, loopCounter := 1, seenResponseHashes := [(Json.arr (JsonList.cons a (JsonList.cons b t))).stringify], previousResponseHash := none, firstResponseHash := none, hasValidData := false, lastResponse := some (env.respond 0), requests := 1 } rfl hit1
          _ = pagGo env (noStopEndpoint .OFFSET_BASED) p c o 498 { allResults := (JsonList.cons a (JsonList.cons b t)).toList, page := 1, offset := some 4, cursor := some Json.null, hasMore := false, loopCounter := 2, seenResponseHashes := [(Json.arr (JsonList.cons a (JsonList.cons b t))).stringify], previousResponseHash := none, firstResponseHash := none, hasValidData := false, lastResponse := some (env.respond 0), requests := 2 } :=
              pagGo_step env (noStopEndpoint .OFFSET_BASED) p c o 498 { allResults := (JsonList.cons a (JsonList.cons b t)).toList, page := 1, offset := some 2, cursor := some Json.null, hasMore := true, loopCounter := 1, seenResponseHashes := [(Json.arr (JsonList.cons a (JsonList.cons b t))).stringify], previousResponseHash := none, firstResponseHash := none, hasValidData := false, lastResponse := some (env.respond 0), requests := 1 } { allResults := (JsonList.cons a (JsonList.cons b t)).toList, page := 1, offset := some 4, cursor := some Json.null, hasMore := false, loopCounter := 2, seenResponseHashes := [(Json.arr (JsonList.cons a (JsonList.cons b t))).stringify], previousResponseHash := none, firstResponseHash := none, hasValidData := false, lastResponse := some (env.respond 0), requests := 2 } rfl hit2
          _ = ({ allResults := (JsonList.cons a (JsonList.cons b t)).toList, page := 1, offset := some 4, cursor := some Json.null, hasMore := false, loopCounter := 2, seenResponseHashes := [(Json.arr (JsonList.cons a (JsonList.cons b t))).stringify], previousResponseHash := none, firstResponseHash := none, hasValidData := false, lastResponse := some (env.respond 0), requests := 2 }, none) := pagGo_stop env (noStopEndpoint .OFFSET_BASED) p c o 498 { allResults := (JsonList.cons a (JsonList.cons b t)).toList, page := 1, offset := some 4, cursor := some Json.null, hasMore := false, loopCounter := 2, seenResponseHashes := [(Json.arr (JsonList.cons a (JsonList.cons b t))).stringify], previousResponseHash := none, firstResponseHash := none, hasValidData := false, lastResponse := some (env.respond 0), requests := 2 } rfl
      have hcall : callEndpoint env (noStopEndpoint .OFFSET_BASED) p c o =
          { outcome := .ok (finalReturn (noStopEndpoint .OFFSET_BASED) { allResults := (JsonList.cons a (JsonList.cons b t)).toList, page := 1, offset := some 4, cursor := some Json.null, hasMore := false, loopCounter := 2, seenResponseHashes := [(Json.arr (JsonList.cons a (JsonList.cons b t))).stringify], previousResponseHash := none, firstResponseHash := none, hasValidData := false, lastResponse := some (env.respond 0), requests := 2 }), requests := ({ allResults := (JsonList.cons a (JsonList.cons b t)).toList, page := 1, offset := some 4, cursor := some Json.null, hasMore := false, loopCounter := 2, seenResponseHashes := [(Json.arr (JsonList.cons a (JsonList.cons b t))).stringify], previousResponseHash := none, firstResponseHash := none, hasValidData := false, lastResponse := some (env.respond 0), requests := 2 } : PagState).requests } := by
        unfold callEndpoint
        dsimp only
        rw [show maxRequestsFor (noStopEndpoint .OFFSET_BASED) = 500 from rfl, hgo]
      rw [hcall]
      refine ⟨rfl, ?_⟩
      show Except.ok (finalReturn (noStopEndpoint .OFFSET_BASED) { allResults := (JsonList.cons a (JsonList.cons b t)).toList, page := 1, offset := some 4, cursor := some Json.null, hasMore := false, loopCounter := 2, seenResponseHashes := [(Json.arr (JsonList.cons a (JsonList.cons b t))).stringify], previousResponseHash := none, firstResponseHash := none, hasValidData := false, lastResponse := some (env.respond 0), requests := 2 }) = _
      unfold finalReturn
      dsimp only [JsonList.toList]
      rw [show JsonList.ofList (a :: b :: t.toList) = JsonList.cons a (JsonList.cons b (JsonList.ofList t.toList)) from rfl,
        JsonList.ofList_toList]
      rfl

/-- Witness for C2 at the concrete duplicate-page environment. -/
theorem callEndpoint_duplicate_page_terminates_witness :
    (callEndpoint dupPageEnv (noStopEndpoint .PAGE_BASED) [] [] {}).requests = 2 ∧
    (callEndpoint dupPageEnv (noStopEndpoint .PAGE_BASED) [] [] {}).outcome =
      .ok { data := jarr [jobj [("id", .num 1)], jobj [("id", .num 2)]],
            statusCode := 200, headers := [] } :=
  callEndpoint_duplicate_page_terminates.2 dupPageEnv .PAGE_BASED [] [] {}
    (JsonList.ofList [jobj [("id", .num 1)], jobj [("id", .num 2)]])
    (Or.inl rfl) (fun _ => rfl) rfl rfl rfl rfl (by decide)

/-! ## C5: identical first two pages under a stop condition -/

theorem toList_append (a b : String) : (a ++ b).toList = a.toList ++ b.toList := rfl

theorem infix_append_left {α : Type} {x l r : List α} (h : x <:+: l) : x <:+: l ++ r := by
  obtain ⟨s, t, hst⟩ := h
  exact ⟨s, t ++ r, by rw [← hst]; simp⟩

theorem infix_append_right {α : Type} {x l r : List α} (h : x <:+: r) : x <:+: l ++ r := by
  obtain ⟨s, t, hst⟩ := h
  exact ⟨l ++ s, t, by rw [← hst]; simp⟩

/-- The pagination-misconfiguration message always mentions the phrase
"pagination parameters", whatever the interpolated values. -/
theorem paginationConfigErrorMessage_mentions (a b c d e : String) :
    "pagination parameters".toList <:+: (paginationConfigErrorMessage a b c d e).toList := by
  unfold paginationConfigErrorMessage
  simp only [toList_append]
  iterate 11 apply infix_append_left
  apply infix_append_right
  decide

/-- The items that `allResults` accumulation appends for a value. -/
def jsItems : Json → List Json
  | .arr xs => xs.toList
  | d => if d.truthy then [d] else []

theorem accumulateResults_eq (st : PagState) (d : Json) :
    accumulateResults st d = { st with allResults := st.allResults ++ jsItems d } := by
  unfold accumulateResults jsItems
  cases d <;> simp <;> split <;> simp_all

/-- First iteration of the stop-condition branch: hashes are recorded and
the stop condition decides `hasMore`; with a quiet, non-stopping
evaluation the state accumulates and continues. -/
theorem stopConditionBranch_first_ok (env : PagEnv) (ep : ApiConfig) (sc : String)
    (resp : AxiosResp) (d : Json) (mb mp mh : String) (st : PagState)
    (hlc : st.loopCounter = 0)
    (hstopev : env.stopEval sc resp.data
        { page := st.page, offset := st.offset, cursor := st.cursor,
          totalFetched := st.allResults.length } = { error := none, shouldStop := false }) :
    stopConditionBranch env ep sc resp d mb mp mh st =
      .ok (accumulateResults
        { st with
            firstResponseHash := some d.stringify
            hasValidData := currentHasDataOf d
            hasMore := true
            previousResponseHash := some d.stringify } d) := by
  unfold stopConditionBranch
  simp [hlc, hstopev]

/-- Second iteration of the stop-condition branch on a hash equal to the
recorded first hash with valid data on both sides: the configuration
error is thrown. -/
theorem stopConditionBranch_confErr (env : PagEnv) (ep : ApiConfig) (sc : String)
    (resp : AxiosResp) (d : Json) (mb mp mh : String) (st : PagState)
    (hlc : st.loopCounter = 1)
    (hfh : st.firstResponseHash = some d.stringify)
    (hvd : st.hasValidData = true)
    (hhd : currentHasDataOf d = true) :
    stopConditionBranch env ep sc resp d mb mp mh st =
      .error (.generic (paginationConfigErrorMessage (paginationTypeStr ep)
        (paginationPageSizeStr ep) mb mp mh)) := by
  unfold stopConditionBranch
  simp [hlc, hfh, hvd, hhd]

theorem pagGo_exit (env : PagEnv) (ep : ApiConfig) (p c : List (String × Json))
    (o : RequestOptions) (f : Nat) (st st1 : PagState) (ex : IterExit)
    (hg : (st.hasMore && decide (st.loopCounter < maxRequestsFor ep)) = true)
    (hit : pagIter env ep p c o st = (st1, some ex)) :
    pagGo env ep p c o (f + 1) st = (st1, some ex) := by
  conv_lhs => unfold pagGo
  rw [if_pos hg, hit]

/-- Under a passing response and a present stop condition, one loop
iteration reduces to the stop-condition branch plus cursor advancement,
or exits with the thrown error. -/
theorem pagIter_stop (env : PagEnv) (ep : ApiConfig)
    (p c : List (String × Json)) (o : RequestOptions) (st : PagState)
    (hsc : hasStopCondition ep = true)
    (hpg : (jsStartsWith (env.substHost st.loopCounter) "postgres://" ||
            jsStartsWith (env.substHost st.loopCounter) "postgresql://") = false)
    (hfail : respFails (env.respond st.loopCounter) = false)
    (hhtml : htmlSniff (env.respond st.loopCounter).data = none) :
    pagIter env ep p c o st =
      (match stopConditionBranch env ep (stopConditionOf ep) (env.respond st.loopCounter)
          (extractResponseData env ep (env.respond st.loopCounter).data)
          (maskCredentials (processedBodyAt env ep st.loopCounter) (credMaskValues c p))
          (maskCredentials (strPairsToJson (processQueryParams (env.substParams st.loopCounter))).stringify (credMaskValues c p))
          (maskCredentials (strPairsToJson (processHeaders (env.substHeaders st.loopCounter))).stringify (credMaskValues c p))
          { st with lastResponse := some (env.respond st.loopCounter), requests := st.requests + 1 } with
       | .error e =>
         ({ st with lastResponse := some (env.respond st.loopCounter), requests := st.requests + 1 },
          some (.err e))
       | .ok st2 =>
         ({ advanceCursor ep (env.respond st.loopCounter) st2 with
            loopCounter := (advanceCursor ep (env.respond st.loopCounter) st2).loopCounter + 1 },
          none)) := by
  unfold pagIter
  dsimp only
  rw [hpg]
  simp only [Bool.false_eq_true, if_false]
  rw [hfail]
  simp only [Bool.false_eq_true, if_false]
  rw [hhtml, hsc]
  simp only [if_true]

/-- An endpoint with a stop condition and page size 2 (the concrete shape
used for the identical-first-pages scenario). -/
def stopEndpoint (pt : PaginationType) (sc : String) : ApiConfig :=
  { pagination := some { type := pt, pageSize := some "2", stopCondition := some sc } }

/-- C5: with a stop condition set, when the stop condition does not fire
on the first page and the second response is identical to the first (same
stable JSON hash) with non-empty data, `callEndpoint` throws the
pagination configuration error, whose message mentions "pagination
parameters", after exactly 2 requests. -/
theorem callEndpoint_identical_first_pages_error
    (env : PagEnv) (pt : PaginationType) (sc : String)
    (p c : List (String × Json)) (o : RequestOptions) (d : Json)
    (hpt : pt = .PAGE_BASED ∨ pt = .OFFSET_BASED)
    (hsc : sc ≠ "")
    (hpg : ∀ n, (jsStartsWith (env.substHost n) "postgres://" ||
                 jsStartsWith (env.substHost n) "postgresql://") = false)
    (hr1 : env.respond 1 = env.respond 0)
    (hfail : respFails (env.respond 0) = false)
    (hhtml : htmlSniff (env.respond 0).data = none)
    (hex : extractResponseData env (stopEndpoint pt sc) (env.respond 0).data = d)
    (hhd : currentHasDataOf d = true)
    (hstopev : env.stopEval sc (env.respond 0).data
        { page := 1, offset := some 0, cursor := some Json.null, totalFetched := 0 } =
        { error := none, shouldStop := false }) :
    ∃ m, (callEndpoint env (stopEndpoint pt sc) p c o).outcome = .error (.generic m) ∧
      "pagination parameters".toList <:+: m.toList ∧
      (callEndpoint env (stopEndpoint pt sc) p c o).requests = 2 := by
  have hscc : hasStopCondition (stopEndpoint pt sc) = true := by
    simp [hasStopCondition, stopEndpoint, hsc]
  have hmax : maxRequestsFor (stopEndpoint pt sc) = 1000 := by
    simp [maxRequestsFor, hscc, MAX_PAGINATION_REQUESTS]
  rcases hpt with hpt | hpt <;> subst hpt
  · -- PAGE_BASED
      have e1 : pagIter env (stopEndpoint .PAGE_BASED sc) p c o {} = ({ allResults := [] ++ jsItems d, page := 2, offset := some 0, cursor := some Json.null, hasMore := true, loopCounter := 1, seenResponseHashes := [], previousResponseHash := some d.stringify, firstResponseHash := some d.stringify, hasValidData := true, lastResponse := some (env.respond 0), requests := 1 }, none) := by
        rw [pagIter_stop env (stopEndpoint .PAGE_BASED sc) p c o {} hscc (hpg 0) hfail hhtml]
        dsimp only
        rw [show stopConditionOf (stopEndpoint .PAGE_BASED sc) = sc from rfl, hex]
        rw [stopConditionBranch_first_ok env (stopEndpoint .PAGE_BASED sc) sc (env.respond 0) d
          (maskCredentials (processedBodyAt env (stopEndpoint .PAGE_BASED sc) 0) (credMaskValues c p)) (maskCredentials (strPairsToJson (processQueryParams (env.substParams 0))).stringify (credMaskValues c p)) (maskCredentials (strPairsToJson (processHeaders (env.substHeaders 0))).stringify (credMaskValues c p))
          { allResults := [], page := 1, offset := some 0, cursor := some Json.null, hasMore := true, loopCounter := 0, seenResponseHashes := [], previousResponseHash := none, firstResponseHash := none, hasValidData := false, lastResponse := some (env.respond 0), requests := 0 + 1 } rfl hstopev]
        rw [accumulateResults_eq]
        dsimp only
        rw [hhd]
        rfl
      have e2 : pagIter env (stopEndpoint .PAGE_BASED sc) p c o { allResults := [] ++ jsItems d, page := 2, offset := some 0, cursor := some Json.null, hasMore := true, loopCounter := 1, seenResponseHashes := [], previousResponseHash := some d.stringify, firstResponseHash := some d.stringify, hasValidData := true, lastResponse := some (env.respond 0), requests := 1 } =
          ({ allResults := [] ++ jsItems d, page := 2, offset := some 0, cursor := some Json.null, hasMore := true, loopCounter := 1, seenResponseHashes := [], previousResponseHash := some d.stringify, firstResponseHash := some d.stringify, hasValidData := true, lastResponse := some (env.respond 0), requests := 2 }, some (.err (.generic (paginationConfigErrorMessage (paginationTypeStr (stopEndpoint .PAGE_BASED sc)) (paginationPageSizeStr (stopEndpoint .PAGE_BASED sc)) (maskCredentials (processedBodyAt env (stopEndpoint .PAGE_BASED sc) 1) (credMaskValues c p)) (maskCredentials (strPairsToJson (processQueryParams (env.substParams 1))).stringify (credMaskValues c p)) (maskCredentials (strPairsToJson (processHeaders (env.substHeaders 1))).stringify (credMaskValues c p)))))) := by
        rw [pagIter_stop env (stopEndpoint .PAGE_BASED sc) p c o { allResults := [] ++ jsItems d, page := 2, offset := some 0, cursor := some Json.null, hasMore := true, loopCounter := 1, seenResponseHashes := [], previousResponseHash := some d.stringify, firstResponseHash := some d.stringify, hasValidData := true, lastResponse := some (env.respond 0), requests := 1 } hscc (hpg 1)
          (by show respFails (env.respond 1) = false; rw [hr1]; exact hfail)
          (by show htmlSniff (env.respond 1).data = none; rw [hr1]; exact hhtml)]
        dsimp only
        rw [hr1]
        rw [show stopConditionOf (stopEndpoint .PAGE_BASED sc) = sc from rfl, hex]
        rw [stopConditionBranch_confErr env (stopEndpoint .PAGE_BASED sc) sc (env.respond 0) d
          (maskCredentials (processedBodyAt env (stopEndpoint .PAGE_BASED sc) 1) (credMaskValues c p)) (maskCredentials (strPairsToJson (processQueryParams (env.substParams 1))).stringify (credMaskValues c p)) (maskCredentials (strPairsToJson (processHeaders (env.substHeaders 1))).stringify (credMaskValues c p))
          { allResults := [] ++ jsItems d, page := 2, offset := some 0, cursor := some Json.null, hasMore := true, loopCounter := 1, seenResponseHashes := [], previousResponseHash := some d.stringify, firstResponseHash := some d.stringify, hasValidData := true, lastResponse := some (env.respond 0), requests := 1 + 1 } rfl rfl rfl hhd]
      have hg1 : ((({} : PagState)).hasMore && decide ((({} : PagState)).loopCounter < maxRequestsFor (stopEndpoint .PAGE_BASED sc))) = true := by
        rw [hmax]
        rfl
      have hg2 : (({ allResults := [] ++ jsItems d, page := 2, offset := some 0, cursor := some Json.null, hasMore := true, loopCounter := 1, seenResponseHashes := [], previousResponseHash := some d.stringify, firstResponseHash := some d.stringify, hasValidData := true, lastResponse := some (env.respond 0), requests := 1 } : PagState).hasMore && decide (({ allResults := [] ++ jsItems d, page := 2, offset := some 0, cursor := some Json.null, hasMore := true, loopCounter := 1, seenResponseHashes := [], previousResponseHash := some d.stringify, firstResponseHash := some d.stringify, hasValidData := true, lastResponse := some (env.respond 0), requests := 1 } : PagState).loopCounter < maxRequestsFor (stopEndpoint .PAGE_BASED sc))) = true := by
        rw [hmax]
        rfl
      have hgo : pagGo env (stopEndpoint .PAGE_BASED sc) p c o (maxRequestsFor (stopEndpoint .PAGE_BASED sc)) {} =
          ({ allResults := [] ++ jsItems d, page := 2, offset := some 0, cursor := some Json.null, hasMore := true, loopCounter := 1, seenResponseHashes := [], previousResponseHash := some d.stringify, firstResponseHash := some d.stringify, hasValidData := true, lastResponse := some (env.respond 0), requests := 2 }, some (.err (.generic (paginationConfigErrorMessage (paginationTypeStr (stopEndpoint .PAGE_BASED sc)) (paginationPageSizeStr (stopEndpoint .PAGE_BASED sc)) (maskCredentials (processedBodyAt env (stopEndpoint .PAGE_BASED sc) 1) (credMaskValues c p)) (maskCredentials (strPairsToJson (processQueryParams (env.substParams 1))).stringify (credMaskValues c p)) (maskCredentials (strPairsToJson (processHeaders (env.substHeaders 1))).stringify (credMaskValues c p)))))) := by
        rw [hmax]
        calc pagGo env (stopEndpoint .PAGE_BASED sc) p c o 1000 {}
            = pagGo env (stopEndpoint .PAGE_BASED sc) p c o 999 { allResults := [] ++ jsItems d, page := 2, offset := some 0, cursor := some Json.null, hasMore := true, loopCounter := 1, seenResponseHashes := [], previousResponseHash := some d.stringify, firstResponseHash := some d.stringify, hasValidData := true, lastResponse := some (env.respond 0), requests := 1 } :=
              pagGo_step env (stopEndpoint .PAGE_BASED sc) p c o 999 {} { allResults := [] ++ jsItems d, page := 2, offset := some 0, cursor := some Json.null, hasMore := true, loopCounter := 1, seenResponseHashes := [], previousResponseHash := some d.stringify, firstResponseHash := some d.stringify, hasValidData := true, lastResponse := some (env.respond 0), requests := 1 } hg1 e1
          _ = ({ allResults := [] ++ jsItems d, page := 2, offset := some 0, cursor := some Json.null, hasMore := true, loopCounter := 1, seenResponseHashes := [], previousResponseHash := some d.stringify, firstResponseHash := some d.stringify, hasValidData := true, lastResponse := some (env.respond 0), requests := 2 }, some (.err (.generic (paginationConfigErrorMessage (paginationTypeStr (stopEndpoint .PAGE_BASED sc)) (paginationPageSizeStr (stopEndpoint .PAGE_BASED sc)) (maskCredentials (processedBodyAt env (stopEndpoint .PAGE_BASED sc) 1) (credMaskValues c p)) (maskCredentials (strPairsToJson (processQueryParams (env.substParams 1))).stringify (credMaskValues c p)) (maskCredentials (strPairsToJson (processHeaders (env.substHeaders 1))).stringify (credMaskValues c p)))))) :=
              pagGo_exit env (stopEndpoint .PAGE_BASED sc) p c o 998 { allResults := [] ++ jsItems d, page := 2, offset := some 0, cursor := some Json.null, hasMore := true, loopCounter := 1, seenResponseHashes := [], previousResponseHash := some d.stringify, firstResponseHash := some d.stringify, hasValidData := true, lastResponse := some (env.respond 0), requests := 1 } { allResults := [] ++ jsItems d, page := 2, offset := some 0, cursor := some Json.null, hasMore := true, loopCounter := 1, seenResponseHashes := [], previousResponseHash := some d.stringify, firstResponseHash := some d.stringify, hasValidData := true, lastResponse := some (env.respond 0), requests := 2 } _ hg2 e2
      refine ⟨paginationConfigErrorMessage (paginationTypeStr (stopEndpoint .PAGE_BASED sc)) (paginationPageSizeStr (stopEndpoint .PAGE_BASED sc)) (maskCredentials (processedBodyAt env (stopEndpoint .PAGE_BASED sc) 1) (credMaskValues c p)) (maskCredentials (strPairsToJson (processQueryParams (env.substParams 1))).stringify (credMaskValues c p)) (maskCredentials (strPairsToJson (processHeaders (env.substHeaders 1))).stringify (credMaskValues c p)), ?_, paginationConfigErrorMessage_mentions _ _ _ _ _, ?_⟩
      · unfold callEndpoint
        dsimp only
        rw [hgo]
      · unfold callEndpoint
        dsimp only
        rw [hgo]
  · -- OFFSET_BASED
      have e1 : pagIter env (stopEndpoint .OFFSET_BASED sc) p c o {} = ({ allResults := [] ++ jsItems d, page := 1, offset := some 2, cursor := some Json.null, hasMore := true, loopCounter := 1, seenResponseHashes := [], previousResponseHash := some d.stringify, firstResponseHash := some d.stringify, hasValidData := true, lastResponse := some (env.respond 0), requests := 1 }, none) := by
        rw [pagIter_stop env (stopEndpoint .OFFSET_BASED sc) p c o {} hscc (hpg 0) hfail hhtml]
        dsimp only
        rw [show stopConditionOf (stopEndpoint .OFFSET_BASED sc) = sc from rfl, hex]
        rw [stopConditionBranch_first_ok env (stopEndpoint .OFFSET_BASED sc) sc (env.respond 0) d
          (maskCredentials (processedBodyAt env (stopEndpoint .OFFSET_BASED sc) 0) (credMaskValues c p)) (maskCredentials (strPairsToJson (processQueryParams (env.substParams 0))).stringify (credMaskValues c p)) (maskCredentials (strPairsToJson (processHeaders (env.substHeaders 0))).stringify (credMaskValues c p))
          { allResults := [], page := 1, offset := some 0, cursor := some Json.null, hasMore := true, loopCounter := 0, seenResponseHashes := [], previousResponseHash := none, firstResponseHash := none, hasValidData := false, lastResponse := some (env.respond 0), requests := 0 + 1 } rfl hstopev]
        rw [accumulateResults_eq]
        dsimp only
        rw [hhd]
        rfl
      have e2 : pagIter env (stopEndpoint .OFFSET_BASED sc) p c o { allResults := [] ++ jsItems d, page := 1, offset := some 2, cursor := some Json.null, hasMore := true, loopCounter := 1, seenResponseHashes := [], previousResponseHash := some d.stringify, firstResponseHash := some d.stringify, hasValidData := true, lastResponse := some (env.respond 0), requests := 1 } =
          ({ allResults := [] ++ jsItems d, page := 1, offset := some 2, cursor := some Json.null, hasMore := true, loopCounter := 1, seenResponseHashes := [], previousResponseHash := some d.stringify, firstResponseHash := some d.stringify, hasValidData := true, lastResponse := some (env.respond 0), requests := 2 }, some (.err (.generic (paginationConfigErrorMessage (paginationTypeStr (stopEndpoint .OFFSET_BASED sc)) (paginationPageSizeStr (stopEndpoint .OFFSET_BASED sc)) (maskCredentials (processedBodyAt env (stopEndpoint .OFFSET_BASED sc) 1) (credMaskValues c p)) (maskCredentials (strPairsToJson (processQueryParams (env.substParams 1))).stringify (credMaskValues c p)) (maskCredentials (strPairsToJson (processHeaders (env.substHeaders 1))).stringify (credMaskValues c p)))))) := by
        rw [pagIter_stop env (stopEndpoint .OFFSET_BASED sc) p c o { allResults := [] ++ jsItems d, page := 1, offset := some 2, cursor := some Json.null, hasMore := true, loopCounter := 1, seenResponseHashes := [], previousResponseHash := some d.stringify, firstResponseHash := some d.stringify, hasValidData := true, lastResponse := some (env.respond 0), requests := 1 } hscc (hpg 1)
          (by show respFails (env.respond 1) = false; rw [hr1]; exact hfail)
          (by show htmlSniff (env.respond 1).data = none; rw [hr1]; exact hhtml)]
        dsimp only
        rw [hr1]
        rw [show stopConditionOf (stopEndpoint .OFFSET_BASED sc) = sc from rfl, hex]
        rw [stopConditionBranch_confErr env (stopEndpoint .OFFSET_BASED sc) sc (env.respond 0) d
          (maskCredentials (processedBodyAt env (stopEndpoint .OFFSET_BASED sc) 1) (credMaskValues c p)) (maskCredentials (strPairsToJson (processQueryParams (env.substParams 1))).stringify (credMaskValues c p)) (maskCredentials (strPairsToJson (processHeaders (env.substHeaders 1))).stringify (credMaskValues c p))
          { allResults := [] ++ jsItems d, page := 1, offset := some 2, cursor := some Json.null, hasMore := true, loopCounter := 1, seenResponseHashes := [], previousResponseHash := some d.stringify, firstResponseHash := some d.stringify, hasValidData := true, lastResponse := some (env.respond 0), requests := 1 + 1 } rfl rfl rfl hhd]
      have hg1 : ((({} : PagState)).hasMore && decide ((({} : PagState)).loopCounter < maxRequestsFor (stopEndpoint .OFFSET_BASED sc))) = true := by
        rw [hmax]
        rfl
      have hg2 : (({ allResults := [] ++ jsItems d, page := 1, offset := some 2, cursor := some Json.null, hasMore := true, loopCounter := 1, seenResponseHashes := [], previousResponseHash := some d.stringify, firstResponseHash := some d.stringify, hasValidData := true, lastResponse := some (env.respond 0), requests := 1 } : PagState).hasMore && decide (({ allResults := [] ++ jsItems d, page := 1, offset := some 2, cursor := some Json.null, hasMore := true, loopCounter := 1, seenResponseHashes := [], previousResponseHash := some d.stringify, firstResponseHash := some d.stringify, hasValidData := true, lastResponse := some (env.respond 0), requests := 1 } : PagState).loopCounter < maxRequestsFor (stopEndpoint .OFFSET_BASED sc))) = true := by
        rw [hmax]
        rfl
      have hgo : pagGo env (stopEndpoint .OFFSET_BASED sc) p c o (maxRequestsFor (stopEndpoint .OFFSET_BASED sc)) {} =
          ({ allResults := [] ++ jsItems d, page := 1, offset := some 2, cursor := some Json.null, hasMore := true, loopCounter := 1, seenResponseHashes := [], previousResponseHash := some d.stringify, firstResponseHash := some d.stringify, hasValidData := true, lastResponse := some (env.respond 0), requests := 2 }, some (.err (.generic (paginationConfigErrorMessage (paginationTypeStr (stopEndpoint .OFFSET_BASED sc)) (paginationPageSizeStr (stopEndpoint .OFFSET_BASED sc)) (maskCredentials (processedBodyAt env (stopEndpoint .OFFSET_BASED sc) 1) (credMaskValues c p)) (maskCredentials (strPairsToJson (processQueryParams (env.substParams 1))).stringify (credMaskValues c p)) (maskCredentials (strPairsToJson (processHeaders (env.substHeaders 1))).stringify (credMaskValues c p)))))) := by
        rw [hmax]
        calc pagGo env (stopEndpoint .OFFSET_BASED sc) p c o 1000 {}
            = pagGo env (stopEndpoint .OFFSET_BASED sc) p c o 999 { allResults := [] ++ jsItems d, page := 1, offset := some 2, cursor := some Json.null, hasMore := true, loopCounter := 1, seenResponseHashes := [], previousResponseHash := some d.stringify, firstResponseHash := some d.stringify, hasValidData := true, lastResponse := some (env.respond 0), requests := 1 } :=
              pagGo_step env (stopEndpoint .OFFSET_BASED sc) p c o 999 {} { allResults := [] ++ jsItems d, page := 1, offset := some 2, cursor := some Json.null, hasMore := true, loopCounter := 1, seenResponseHashes := [], previousResponseHash := some d.stringify, firstResponseHash := some d.stringify, hasValidData := true, lastResponse := some (env.respond 0), requests := 1 } hg1 e1
          _ = ({ allResults := [] ++ jsItems d, page := 1, offset := some 2, cursor := some Json.null, hasMore := true, loopCounter := 1, seenResponseHashes := [], previousResponseHash := some d.stringify, firstResponseHash := some d.stringify, hasValidData := true, lastResponse := some (env.respond 0), requests := 2 }, some (.err (.generic (paginationConfigErrorMessage (paginationTypeStr (stopEndpoint .OFFSET_BASED sc)) (paginationPageSizeStr (stopEndpoint .OFFSET_BASED sc)) (maskCredentials (processedBodyAt env (stopEndpoint .OFFSET_BASED sc) 1) (credMaskValues c p)) (maskCredentials (strPairsToJson (processQueryParams (env.substParams 1))).stringify (credMaskValues c p)) (maskCredentials (strPairsToJson (processHeaders (env.substHeaders 1))).stringify (credMaskValues c p)))))) :=
              pagGo_exit env (stopEndpoint .OFFSET_BASED sc) p c o 998 { allResults := [] ++ jsItems d, page := 1, offset := some 2, cursor := some Json.null, hasMore := true, loopCounter := 1, seenResponseHashes := [], previousResponseHash := some d.stringify, firstResponseHash := some d.stringify, hasValidData := true, lastResponse := some (env.respond 0), requests := 1 } { allResults := [] ++ jsItems d, page := 1, offset := some 2, cursor := some Json.null, hasMore := true, loopCounter := 1, seenResponseHashes := [], previousResponseHash := some d.stringify, firstResponseHash := some d.stringify, hasValidData := true, lastResponse := some (env.respond 0), requests := 2 } _ hg2 e2
      refine ⟨paginationConfigErrorMessage (paginationTypeStr (stopEndpoint .OFFSET_BASED sc)) (paginationPageSizeStr (stopEndpoint .OFFSET_BASED sc)) (maskCredentials (processedBodyAt env (stopEndpoint .OFFSET_BASED sc) 1) (credMaskValues c p)) (maskCredentials (strPairsToJson (processQueryParams (env.substParams 1))).stringify (credMaskValues c p)) (maskCredentials (strPairsToJson (processHeaders (env.substHeaders 1))).stringify (credMaskValues c p)), ?_, paginationConfigErrorMessage_mentions _ _ _ _ _, ?_⟩
      · unfold callEndpoint
        dsimp only
        rw [hgo]
      · unfold callEndpoint
        dsimp only
        rw [hgo]


def stopDupEnv : PagEnv :=
  { substHost := fun _ => "https://api.example.com",
    respond := fun _ => { data := jarr [jobj [("id", .num 1)]] },
    stopEval := fun _ _ _ => { error := none, shouldStop := false } }

/-- Witness for C5 at a concrete constant-response environment. -/
theorem callEndpoint_identical_first_pages_error_witness :
    ∃ m, (callEndpoint stopDupEnv (stopEndpoint .PAGE_BASED "$count = 0") [] [] {}).outcome =
        .error (.generic m) ∧
      "pagination parameters".toList <:+: m.toList ∧
      (callEndpoint stopDupEnv (stopEndpoint .PAGE_BASED "$count = 0") [] [] {}).requests = 2 :=
  callEndpoint_identical_first_pages_error stopDupEnv .PAGE_BASED "$count = 0" [] [] {}
    (jarr [jobj [("id", .num 1)]])
    (Or.inl rfl) (by decide) (fun _ => rfl) rfl rfl rfl rfl rfl rfl

/-! ## C6: the return shape of a completed run -/

theorem noStopConditionBranch_lastResponse (ep : ApiConfig) (d : Json) (st : PagState) :
    (noStopConditionBranch ep d st).lastResponse = st.lastResponse := by
  unfold noStopConditionBranch
  dsimp only
  split
  · split <;> split <;> rfl
  · split <;> rfl

theorem stopConditionBranch_ok_lastResponse {env ep sc resp rd mb mp mh st st'}
    (h : stopConditionBranch env ep sc resp rd mb mp mh st = Except.ok st') :
    st'.lastResponse = st.lastResponse := by
  unfold stopConditionBranch at h
  dsimp only at h
  repeat' split at h
  all_goals cases h
  all_goals rw [accumulateResults_eq]

theorem advanceCursor_cursor_cursorBased (ep : ApiConfig) (resp : AxiosResp) (st : PagState)
    (hc : isCursorBased ep = true) :
    (advanceCursor ep resp st).cursor =
      walkCursorPath resp.data (jsSplitChar (cursorPathOf ep) '.') := by
  unfold advanceCursor
  unfold isCursorBased at hc
  split
  · rename_i heq
    rw [heq] at hc
    cases hc
  · rename_i p heq
    rw [heq] at hc
    simp only [decide_eq_true_eq] at hc
    rw [hc]
    dsimp only
    split <;> rfl

/-- The invariant linking the cursor to the last response in cursor-based
mode. -/
def cursorInv (ep : ApiConfig) (st : PagState) : Prop :=
  ∀ r, st.lastResponse = some r →
    st.cursor = walkCursorPath r.data (jsSplitChar (cursorPathOf ep) '.')

theorem pagIter_cursorInv (env : PagEnv) (ep : ApiConfig)
    (p c : List (String × Json)) (o : RequestOptions) (st st1 : PagState)
    (hc : isCursorBased ep = true)
    (hit : pagIter env ep p c o st = (st1, none)) : cursorInv ep st1 := by
  unfold pagIter at hit
  dsimp only at hit
  repeat' split at hit
  all_goals cases hit
  all_goals intro r hr
  all_goals rename_i st2 hbr
  all_goals {
    have hlast : st2.lastResponse = some (env.respond st.loopCounter) := by
      split at hbr
      · have h2 := stopConditionBranch_ok_lastResponse hbr
        rw [h2]
      · injection hbr with hbr
        subst hbr
        rw [noStopConditionBranch_lastResponse]
    have hlast2 : (advanceCursor ep (env.respond st.loopCounter) st2).lastResponse =
        some (env.respond st.loopCounter) := by rw [advanceCursor_lastResponse, hlast]
    have hcur := advanceCursor_cursor_cursorBased ep (env.respond st.loopCounter) st2 hc
    have hrr : some r = some (env.respond st.loopCounter) := by
      rw [← hlast2, ← hr]
    injection hrr with hrr
    subst hrr
    exact hcur
  }

theorem pagGo_cursorInv (env : PagEnv) (ep : ApiConfig)
    (p c : List (String × Json)) (o : RequestOptions) (hc : isCursorBased ep = true) :
    ∀ (fuel : Nat) (st st1 : PagState), cursorInv ep st →
      pagGo env ep p c o fuel st = (st1, none) → cursorInv ep st1 := by
  intro fuel
  induction fuel with
  | zero =>
    intro st st1 hinv hgo
    cases hgo
    exact hinv
  | succ f ih =>
    intro st st1 hinv hgo
    unfold pagGo at hgo
    split at hgo
    · split at hgo
      · rename_i sti hiter
        exact ih sti st1 (pagIter_cursorInv env ep p c o st sti hc hiter) hgo
      · cases hgo
    · cases hgo
      exact hinv

def cursorObjEnv : PagEnv :=
  { substHost := fun _ => "https://api.example.com",
    respond := fun _ => { data := jobj [("a", .num 1)] } }

def cursorObjEndpoint : ApiConfig := { pagination := some { type := .CURSOR_BASED } }

/-- Counterexample to C6 as stated: a cursor-based run whose response is a
single object returns `{next_cursor, results: [object]}`; the claimed
spread form `{next_cursor, ...object}` is a different value (the
`Array.isArray(allResults)` test on line 295 is always true, so the
spread branch is dead code). -/
theorem callEndpoint_cursor_single_object_counterexample :
    (callEndpoint cursorObjEnv cursorObjEndpoint [] [] {}).outcome =
      .ok { data := jobj [("next_cursor", .null), ("results", jarr [jobj [("a", .num 1)]])],
            statusCode := 200, headers := [] } ∧
    jobj [("next_cursor", .null), ("results", jarr [jobj [("a", .num 1)]])] ≠
      jobj [("next_cursor", .null), ("a", .num 1)] :=
  ⟨rfl, by decide⟩

/-- C6 (amended): a completed pagination run in cursor-based mode always
returns `{next_cursor, results: [...]}` (also when the accumulated
response was a single object), with `next_cursor` the value extracted at
the cursor path from the last response; any other mode returns the
accumulated array, or its sole element when exactly one item was
accumulated. The second conjunct checks the cursor scenario of the spec
end to end. -/
theorem callEndpoint_cursor_return_shape :
    (∀ (env : PagEnv) (ep : ApiConfig) (p c : List (String × Json))
       (o : RequestOptions) (st : PagState),
       pagGo env ep p c o (maxRequestsFor ep) {} = (st, none) →
       (callEndpoint env ep p c o).outcome = .ok (finalReturn ep st) ∧
       (isCursorBased ep = true →
         (finalReturn ep st).data =
           Json.obj (.cons "next_cursor" (st.cursor.getD Json.null)
             (.cons "results" (Json.arr (JsonList.ofList st.allResults)) .nil)) ∧
         ∀ r, st.lastResponse = some r →
           st.cursor = walkCursorPath r.data (jsSplitChar (cursorPathOf ep) '.')) ∧
       (isCursorBased ep = false →
         (∀ x, st.allResults = [x] → (finalReturn ep st).data = x) ∧
         (st.allResults.length ≠ 1 →
           (finalReturn ep st).data = Json.arr (JsonList.ofList st.allResults)))) ∧
    ((callEndpoint cursorScenarioEnv cursorScenarioEndpoint [] [] {}).outcome =
       .ok { data := jobj [("next_cursor", .null),
               ("results", jarr [jobj [("id", .num 1)], jobj [("id", .num 2)], jobj [("id", .num 3)]])],
             statusCode := 200, headers := [] } ∧
     (callEndpoint cursorScenarioEnv cursorScenarioEndpoint [] [] {}).requests = 2) := by
  constructor
  · intro env ep p c o st hgo
    refine ⟨?_, ?_, ?_⟩
    · unfold callEndpoint
      dsimp only
      rw [hgo]
    · intro hc
      constructor
      · unfold finalReturn
        dsimp only
        rw [hc]
        simp
      · intro r hr
        exact pagGo_cursorInv env ep p c o hc (maxRequestsFor ep) {} st
          (fun r h => nomatch h) hgo r hr
    · intro hcf
      constructor
      · intro x hx
        unfold finalReturn
        dsimp only
        rw [hcf]
        simp only [Bool.false_eq_true, if_false]
        rw [hx]
      · intro h1
        unfold finalReturn
        dsimp only
        rw [hcf]
        simp only [Bool.false_eq_true, if_false]
        match hres : st.allResults with
        | [] => rfl
        | [x] =>
          rw [hres] at h1
          exact absurd rfl h1
        | x :: y :: l => rfl
  · exact ⟨rfl, rfl⟩

/-- Witness for C6 at the cursor scenario environment. -/
theorem callEndpoint_cursor_return_shape_witness :
    (callEndpoint cursorScenarioEnv cursorScenarioEndpoint [] [] {}).outcome =
      .ok (finalReturn cursorScenarioEndpoint
        (pagGo cursorScenarioEnv cursorScenarioEndpoint [] [] {}
          (maxRequestsFor cursorScenarioEndpoint) {}).1) :=
  (callEndpoint_cursor_return_shape.1 cursorScenarioEnv cursorScenarioEndpoint [] [] {} _ rfl).1

/-! ## C4: the retry budget of executeApiCall -/

theorem execCatch_attempts (c : List (String × Json)) (e : JsError) (st : ExecState) :
    (execCatch c e st).1.attempts = st.attempts := by
  unfold execCatch
  dsimp only
  repeat' split
  all_goals rfl

theorem execCatch_retryCount (c : List (String × Json)) (e : JsError) (st : ExecState) :
    (execCatch c e st).1.retryCount = st.retryCount := by
  unfold execCatch
  dsimp only
  repeat' split
  all_goals rfl

theorem execCatch_lastError (c : List (String × Json)) (e : JsError) (st : ExecState) :
    (execCatch c e st).1.lastError =
      some (jsSlice (maskCredentials e.message (credMaskValues c [])) 1000) := by
  unfold execCatch
  dsimp only
  repeat' split
  all_goals rfl

theorem execAttempt_attempts (env : ExecEnv) (p c : List (String × Json))
    (o : RequestOptions) (st : ExecState) :
    (execAttempt env p c o st).1.attempts = st.attempts + 1 := by
  unfold execAttempt
  dsimp only
  repeat' split
  all_goals first
    | rfl
    | rw [execCatch_attempts]

theorem execAttempt_retryCount (env : ExecEnv) (p c : List (String × Json))
    (o : RequestOptions) (st : ExecState) :
    (execAttempt env p c o st).1.retryCount = st.retryCount := by
  unfold execAttempt
  dsimp only
  repeat' split
  all_goals first
    | rfl
    | rw [execCatch_retryCount]

/-- The masked-and-truncated shape of every recorded `lastError`. -/
def lastErrorMasked (c : List (String × Json)) (st : ExecState) : Prop :=
  ∀ l, st.lastError = some l →
    ∃ raw, l = jsSlice (maskCredentials raw (credMaskValues c [])) 1000

theorem execAttempt_lastErrorMasked (env : ExecEnv) (p c : List (String × Json))
    (o : RequestOptions) (st : ExecState) (hinv : lastErrorMasked c st) :
    lastErrorMasked c (execAttempt env p c o st).1 := by
  unfold execAttempt
  dsimp only
  repeat' split
  all_goals first
    | exact hinv
    | (intro l hl
       rw [execCatch_lastError] at hl
       injection hl with hl
       exact ⟨_, hl.symm⟩)

theorem execGo_attempts (env : ExecEnv) (p c : List (String × Json))
    (o : RequestOptions) (budget : Nat) :
    ∀ (fuel : Nat) (st : ExecState),
      (execGo env p c o budget fuel st).attempts ≤
        st.attempts + 1 + (budget - st.retryCount - 1) := by
  intro fuel
  induction fuel with
  | zero =>
    intro st
    unfold execGo
    dsimp only
    have ha := execAttempt_attempts env p c o st
    split
    · omega
    · split
      · dsimp only
        omega
      · dsimp only
        omega
  | succ f ih =>
    intro st
    unfold execGo
    dsimp only
    have ha := execAttempt_attempts env p c o st
    have hr := execAttempt_retryCount env p c o st
    split
    · omega
    · split
      · rename_i hlt
        refine le_trans (ih _) ?_
        simp only [ha, hr] at hlt ⊢
        omega
      · dsimp only
        omega

theorem execGo_lastErrorMasked (env : ExecEnv) (p c : List (String × Json))
    (o : RequestOptions) (budget : Nat) :
    ∀ (fuel : Nat) (st : ExecState), lastErrorMasked c st →
      lastErrorMasked c (execGo env p c o budget fuel st) := by
  intro fuel
  induction fuel with
  | zero =>
    intro st hinv
    unfold execGo
    dsimp only
    have h1 := execAttempt_lastErrorMasked env p c o st hinv
    split
    · exact h1
    · split
      · exact fun l hl => h1 l hl
      · exact fun l hl => h1 l hl
  | succ f ih =>
    intro st hinv
    unfold execGo
    dsimp only
    have h1 := execAttempt_lastErrorMasked env p c o st hinv
    split
    · exact h1
    · split
      · exact ih _ (fun l hl => h1 l hl)
      · exact fun l hl => h1 l hl

/-- An environment whose every HTTP response is a status-500 error, so
every attempt of `executeApiCall` fails. -/
def failPagEnv : PagEnv :=
  { substHost := fun _ => "https://api.example.com"
    respond := fun _ => { status := 500, data := Json.null } }

def c4FailEnv : ExecEnv := { pagEnv := fun _ => failPagEnv }

/-- C4 counterexample: with `options.retries = 0` the `do`/`while` loop of
`executeApiCall` still runs its body once, so the claimed bound of "at
most `options.retries` attempts" fails: one attempt is made although the
budget is 0. -/
theorem executeApiCall_zero_retries_counterexample :
    (executeApiCall c4FailEnv {} [] [] { retries := some 0 }).attempts = 1 ∧
    ¬ ((executeApiCall c4FailEnv {} [] [] { retries := some 0 }).attempts ≤ 0) := by
  refine ⟨rfl, ?_⟩
  intro h
  rw [show (executeApiCall c4FailEnv {} [] [] { retries := some 0 }).attempts = 1 from rfl] at h
  omega

/-- C4 (amended): the repair loop of `executeApiCall` runs at most
`max 1 (options.retries ?? MAX_CALL_RETRIES)` attempts (the `do`/`while`
always runs at least once, so a budget of 0 still yields one attempt);
and whenever the run ends without success, the outcome is an
`ApiCallError` whose message is built by `execFailMessage` from the final
`lastError`, and every recorded `lastError` is a credential-masked,
1000-character-truncated error string. -/
theorem executeApiCall_retry_budget (env : ExecEnv) (endpoint : ApiConfig)
    (payload credentials : List (String × Json)) (options : RequestOptions) :
    (executeApiCall env endpoint payload credentials options).attempts ≤
      max 1 (options.retries.getD MAX_CALL_RETRIES) ∧
    ((executeApiCall env endpoint payload credentials options).success = false →
      ∃ sc, (executeApiCall env endpoint payload credentials options).outcome =
          .error (.apiCall
            (execFailMessage
              (executeApiCall env endpoint payload credentials options).retryCount
              (executeApiCall env endpoint payload credentials options).lastError) sc) ∧
        ∀ l, (executeApiCall env endpoint payload credentials options).lastError = some l →
          ∃ raw, l = jsSlice (maskCredentials raw (credMaskValues credentials [])) 1000) := by
  have hmask := execGo_lastErrorMasked env payload credentials options
  unfold executeApiCall
  dsimp only
  constructor
  · split
    all_goals
      dsimp only
      refine le_trans (execGo_attempts env payload credentials options _ _ _) ?_
      dsimp only
      cases hro : options.retries with
      | none =>
        dsimp only [Option.getD]
        omega
      | some r =>
        dsimp only [Option.getD]
        omega
  · intro hfail
    split at hfail
    · rename_i hsucc
      rw [if_pos hsucc]
      dsimp only
      refine ⟨_, rfl, ?_⟩
      exact hmask _ _ _ (fun l hl => nomatch hl)
    · dsimp only at hfail
      simp at hfail

/-- Witness for the amended C4 theorem: the always-failing environment
with a retry budget of 0 makes one attempt (within the `max 1` bound) and
ends in the `ApiCallError` built by `execFailMessage`, with a masked
`lastError`. -/
theorem executeApiCall_retry_budget_witness :
    (executeApiCall c4FailEnv {} [] [] { retries := some 0 }).attempts ≤
      max 1 (({ retries := some 0 } : RequestOptions).retries.getD MAX_CALL_RETRIES) ∧
    ∃ sc, (executeApiCall c4FailEnv {} [] [] { retries := some 0 }).outcome =
        .error (.apiCall
          (execFailMessage
            (executeApiCall c4FailEnv {} [] [] { retries := some 0 }).retryCount
            (executeApiCall c4FailEnv {} [] [] { retries := some 0 }).lastError) sc) ∧
      ∀ l, (executeApiCall c4FailEnv {} [] [] { retries := some 0 }).lastError = some l →
        ∃ raw, l = jsSlice (maskCredentials raw (credMaskValues [] [])) 1000 :=
  ⟨(executeApiCall_retry_budget c4FailEnv {} [] [] { retries := some 0 }).1,
   (executeApiCall_retry_budget c4FailEnv {} [] [] { retries := some 0 }).2 rfl⟩

/-! ## C3: the user message pushed to the LLM on a failed attempt -/

/-- C3 scenario: attempt 1 (after the self-heal kicks in) receives data
that echoes a credential value, and the response evaluator rejects it,
so the thrown error message (reason plus `JSON.stringify(response.data)`)
carries the credential. -/
def c3OkPagEnv : PagEnv :=
  { substHost := fun _ => "https://api.example.com"
    respond := fun _ => { data := jobj [("token", Json.str "supersecret123")] } }

def c3Env : ExecEnv :=
  { pagEnv := fun n => if n = 0 then failPagEnv else c3OkPagEnv
    llmGenerate := fun _ msgs => { messages := msgs }
    evalResponse := fun _ _ =>
      { success := false, shortReason := "response does not match the instruction" } }

def c3Credentials : List (String × Json) := [("api_key", Json.str "supersecret123")]

def c3Run : ExecOut := executeApiCall c3Env {} [] c3Credentials { retries := some 2 }

/-- C3 (code bug evidence): the catch block of `executeApiCall` pushes the
RAW error string (`rawErrorString.slice(0, 2000)`) onto the LLM
conversation; only `lastError` goes through `maskCredentials`. In the
`c3Run` scenario the conversation ends up holding a user message that
contains the credential value `supersecret123` verbatim, although masking
that same message would have removed it — refuting the claim that the
appended user message has credential values masked. -/
theorem executeApiCall_llm_message_unmasked :
    (c3Run.messages.map (fun m => m.content)).any
      (fun s => jsIncludes s "supersecret123" &&
        !(jsIncludes (maskCredentials s (credMaskValues c3Credentials []))
            "supersecret123")) = true := by
  set_option maxRecDepth 10000 in decide

/-! ## C7: Authorization header processing -/

/-- What the replace `$1 $2` actually produces on a doubled scheme: both
captured scheme words survive and the whitespace consumed after the
second one is dropped, gluing it to the payload. -/
theorem dedupAuthScheme_two_schemes (s1 s2 : String)
    (h1 : s1 = "Basic" ∨ s1 = "Bearer") (h2 : s2 = "Basic" ∨ s2 = "Bearer")
    (c : Char) (cs : List Char) :
    dedupAuthScheme (s1 ++ " " ++ s2 ++ " " ++ String.mk (c :: cs)) =
      s1 ++ " " ++ s2 ++ String.mk ((c :: cs).dropWhile isJsSpace) := by
  rcases h1 with rfl | rfl <;> rcases h2 with rfl | rfl <;> rfl

/-- A non-base64-looking Basic payload is base64-encoded. -/
theorem convertBasicAuthToBase64_encodes (p : String)
    (h : ¬ (seemsBase64Encoded (jsTrim p) = true)) :
    convertBasicAuthToBase64 ("Basic " ++ p) = "Basic " ++ base64Encode (jsTrim p) := by
  have hred : convertBasicAuthToBase64 ("Basic " ++ p) =
      if ¬ (seemsBase64Encoded (jsTrim p) = true) then "Basic " ++ base64Encode (jsTrim p)
      else "Basic " ++ p := rfl
  rw [hred, if_pos h]

/-- C7 counterexample: the claimed deduplication does not happen. The
replacement string `$1 $2` keeps BOTH scheme words, and the regex eats the
whitespace separating the second scheme word from the payload, so
`Bearer Bearer abc123` becomes `Bearer Bearerabc123`, not the claimed
single-scheme `Bearer abc123`. -/
theorem processHeaderValue_bearer_dup_counterexample :
    processHeaderValue "Authorization" "Bearer Bearer abc123" = "Bearer Bearerabc123" ∧
    processHeaderValue "Authorization" "Bearer Bearer abc123" ≠ "Bearer abc123" :=
  ⟨rfl, by decide⟩

/-- C7 (amended): for an Authorization value starting with two scheme
words (`Basic`/`Bearer`) separated by whitespace, the replace keeps both
scheme words joined by a single space and glues the second scheme word
directly to the payload (no deduplication to a single scheme word); and a
`Basic` value that the scheme-replace leaves unchanged, whose trimmed
payload does not match the base64 alphabet test, is re-emitted with the
payload base64-encoded. -/
theorem processHeaderValue_authorization_amended :
    (∀ (s1 s2 : String) (c : Char) (cs : List Char),
      (s1 = "Basic" ∨ s1 = "Bearer") → (s2 = "Basic" ∨ s2 = "Bearer") →
      ¬ (isJsSpace c = true) →
      dedupAuthScheme (s1 ++ " " ++ s2 ++ " " ++ String.mk (c :: cs)) =
        s1 ++ " " ++ s2 ++ String.mk (c :: cs)) ∧
    (∀ p : String, dedupAuthScheme ("Basic " ++ p) = "Basic " ++ p →
      ¬ (seemsBase64Encoded (jsTrim p) = true) →
      processHeaderValue "Authorization" ("Basic " ++ p) =
        "Basic " ++ base64Encode (jsTrim p)) := by
  constructor
  · intro s1 s2 c cs h1 h2 hc
    rw [dedupAuthScheme_two_schemes s1 s2 h1 h2 c cs, List.dropWhile_cons, if_neg hc]
  · intro p hded hb
    have hred : processHeaderValue "Authorization" ("Basic " ++ p) =
        if jsStartsWith (dedupAuthScheme ("Basic " ++ p)) "Basic " = true then
          convertBasicAuthToBase64 (dedupAuthScheme ("Basic " ++ p))
        else dedupAuthScheme ("Basic " ++ p) := rfl
    rw [hred, hded, if_pos (show jsStartsWith ("Basic " ++ p) "Basic " = true by
      simp [jsStartsWith, toList_append, List.isPrefixOf])]
    exact convertBasicAuthToBase64_encodes p hb

/-- Witness for the amended C7 theorem: the doubled-Bearer value keeps
both scheme words glued to the payload, and `Basic user:pass` gets its
payload base64-encoded. -/
theorem processHeaderValue_authorization_amended_witness :
    dedupAuthScheme ("Bearer" ++ " " ++ "Bearer" ++ " " ++ String.mk ['a', 'b', 'c']) =
      "Bearer" ++ " " ++ "Bearer" ++ String.mk ['a', 'b', 'c'] ∧
    processHeaderValue "Authorization" ("Basic " ++ "user:pass") =
      "Basic " ++ base64Encode (jsTrim "user:pass") :=
  ⟨processHeaderValue_authorization_amended.1 "Bearer" "Bearer" 'a' ['b', 'c']
      (Or.inr rfl) (Or.inr rfl) (by decide),
   processHeaderValue_authorization_amended.2 "user:pass" (by decide) (by decide)⟩

/-! ## C8: PostgresService.listRuns -/

/-- C8: every `listRuns` result has `total` equal to the count of ALL
rows matching the org/config filter (not just the returned page), its
items sorted by `startedAt` descending, at most `limit` items (the
`LIMIT`/`OFFSET` page of the sorted rows), and every returned item
matches the filter. -/
theorem listRuns_spec (db : List RunRow) (limit offset : Nat)
    (configId : Option String) (orgId : Option String) :
    (listRuns db limit offset configId orgId).total =
      (db.filter (runMatches configId (orgId.getD ""))).length ∧
    List.Sorted (fun a b => b.startedAt ≤ a.startedAt)
      (listRuns db limit offset configId orgId).items ∧
    (listRuns db limit offset configId orgId).items.length ≤ limit ∧
    ∀ r ∈ (listRuns db limit offset configId orgId).items,
      runMatches configId (orgId.getD "") r = true := by
  haveI : IsTotal RunRow (fun a b => b.startedAt ≤ a.startedAt) :=
    ⟨fun a b => le_total b.startedAt a.startedAt⟩
  haveI : IsTrans RunRow (fun a b => b.startedAt ≤ a.startedAt) :=
    ⟨fun a b c h1 h2 => le_trans h2 h1⟩
  have hsub : List.Sublist
      (((List.insertionSort (fun a b => b.startedAt ≤ a.startedAt)
        (db.filter (runMatches configId (orgId.getD "")))).drop offset).take limit)
      (List.insertionSort (fun a b => b.startedAt ≤ a.startedAt)
        (db.filter (runMatches configId (orgId.getD "")))) :=
    List.Sublist.trans (List.take_sublist _ _) (List.drop_sublist _ _)
  refine ⟨rfl, ?_, ?_, ?_⟩
  · exact List.Pairwise.sublist hsub
      (List.sorted_insertionSort (fun (a b : RunRow) => b.startedAt ≤ a.startedAt)
        (db.filter (runMatches configId (orgId.getD ""))))
  · exact List.length_take_le _ _
  · intro r hr
    have hmem := hsub.subset hr
    have hperm := List.perm_insertionSort (fun (a b : RunRow) => b.startedAt ≤ a.startedAt)
      (db.filter (runMatches configId (orgId.getD "")))
    exact (List.mem_filter.mp (hperm.mem_iff.mp hmem)).2

/-! ## C9: getOAuthTokenUrl -/

/-- C9: `getOAuthTokenUrl` returns a truthy `credentials.token_url` when
present; otherwise, when the first catalog entry matching the integration
(by `id` equality or `urlHost` substring) carries an `oauth.tokenUrl`, it
returns that; otherwise (no catalog hit, or a hit without a token URL)
the fallback `urlHost + "/oauth/token"`. The last four conjuncts are the
token-URL test vectors of the oauth test suite. -/
theorem getOAuthTokenUrl_spec :
    (∀ integration : IntegrationInput, (integration.token_url.getD "") ≠ "" →
      getOAuthTokenUrl integration = integration.token_url.getD "") ∧
    (∀ (integration : IntegrationInput) (k u : String),
      (integration.token_url.getD "") = "" →
      integrations.find?
          (fun kv => integration.id == kv.1 || jsIncludes integration.urlHost kv.1) =
        some (k, some u) →
      getOAuthTokenUrl integration = u) ∧
    (∀ integration : IntegrationInput,
      (integration.token_url.getD "") = "" →
      integrations.find?
          (fun kv => integration.id == kv.1 || jsIncludes integration.urlHost kv.1) = none →
      getOAuthTokenUrl integration = integration.urlHost ++ "/oauth/token") ∧
    (∀ (integration : IntegrationInput) (k : String),
      (integration.token_url.getD "") = "" →
      integrations.find?
          (fun kv => integration.id == kv.1 || jsIncludes integration.urlHost kv.1) =
        some (k, none) →
      getOAuthTokenUrl integration = integration.urlHost ++ "/oauth/token") ∧
    getOAuthTokenUrl { id := "github", urlHost := "https://api.github.com" } =
      "https://github.com/login/oauth/access_token" ∧
    getOAuthTokenUrl { id := "my-github", urlHost := "https://api.github.com" } =
      "https://github.com/login/oauth/access_token" ∧
    getOAuthTokenUrl
      { id := "custom"
        urlHost := "https://api.custom.com"
        token_url := some "https://custom.com/oauth/token" } =
      "https://custom.com/oauth/token" ∧
    getOAuthTokenUrl { id := "unknown", urlHost := "https://api.unknown.com" } =
      "https://api.unknown.com/oauth/token" := by
  refine ⟨?_, ?_, ?_, ?_, rfl, rfl, rfl, rfl⟩
  · intro integration h
    unfold getOAuthTokenUrl
    rw [if_pos h]
  · intro integration k u h hfind
    unfold getOAuthTokenUrl
    rw [if_neg (fun hne => hne h), hfind]
  · intro integration h hfind
    unfold getOAuthTokenUrl
    rw [if_neg (fun hne => hne h), hfind]
  · intro integration k h hfind
    unfold getOAuthTokenUrl
    rw [if_neg (fun hne => hne h), hfind]

/-- Witness for the C9 theorem: a user token URL wins for `custom`; the
catalog supplies the github token URL for id `github`; `unknown` matches
no entry and falls back; `stripe` hits a catalog entry without a token
URL and also falls back. -/
theorem getOAuthTokenUrl_spec_witness :
    getOAuthTokenUrl
      { id := "custom"
        urlHost := "https://api.custom.com"
        token_url := some "https://custom.com/oauth/token" } =
      (({ id := "custom"
          urlHost := "https://api.custom.com"
          token_url := some "https://custom.com/oauth/token" } :
            IntegrationInput).token_url.getD "") ∧
    getOAuthTokenUrl { id := "github", urlHost := "https://api.github.com" } =
      "https://github.com/login/oauth/access_token" ∧
    getOAuthTokenUrl { id := "unknown", urlHost := "https://api.unknown.com" } =
      "https://api.unknown.com" ++ "/oauth/token" ∧
    getOAuthTokenUrl { id := "stripe", urlHost := "https://api.stripe.com" } =
      "https://api.stripe.com" ++ "/oauth/token" :=
  ⟨getOAuthTokenUrl_spec.1
      { id := "custom"
        urlHost := "https://api.custom.com"
        token_url := some "https://custom.com/oauth/token" } (by decide),
   getOAuthTokenUrl_spec.2.1 { id := "github", urlHost := "https://api.github.com" }
      "github" "https://github.com/login/oauth/access_token" (by decide) (by decide),
   getOAuthTokenUrl_spec.2.2.1 { id := "unknown", urlHost := "https://api.unknown.com" }
      (by decide) (by decide),
   getOAuthTokenUrl_spec.2.2.2.1 { id := "stripe", urlHost := "https://api.stripe.com" }
      "stripe" (by decide) (by decide)⟩

/-- A small concrete runs table exercising the org and config filters. -/
def c8Db : List RunRow := [
  { id := "r1", configId := some "cfg", orgId := "org", startedAt := 10 },
  { id := "r2", configId := some "cfg", orgId := "org", startedAt := 30 },
  { id := "r3", configId := some "other", orgId := "org", startedAt := 20 },
  { id := "r4", configId := some "cfg", orgId := "org2", startedAt := 40 }]

/-- Witness for the C8 theorem on `c8Db` with `limit = 1`: the total still
counts both matching rows, and the newest matching row, which is the one
returned on the first page, matches the filter. -/
theorem listRuns_spec_witness :
    (listRuns c8Db 1 0 (some "cfg") (some "org")).total =
      (c8Db.filter (runMatches (some "cfg") ((some "org").getD ""))).length ∧
    runMatches (some "cfg") ((some "org").getD "")
      { id := "r2", configId := some "cfg", orgId := "org", startedAt := 30 } = true :=
  ⟨(listRuns_spec c8Db 1 0 (some "cfg") (some "org")).1,
   (listRuns_spec c8Db 1 0 (some "cfg") (some "org")).2.2.2
     { id := "r2", configId := some "cfg", orgId := "org", startedAt := 30 } (by decide)⟩
